import Mathlib

/-!
Verification of the PacificSupport ticketing backend
(`backend/main.py`, `backend/models.py`, `backend/websocket_manager.py`,
`backend/email_service.py`) against its natural-language specification.

The backend is shallowly embedded: Mongo documents become records with
optional fields (absent field = `none`), `datetime.utcnow()` readings are
abstract `Nat` clock values supplied one per call, `uuid.uuid4()` results
are supplied as explicit string parameters, and every HTTP handler becomes
a pure function from a store (plus its request inputs) to a result, a new
store, and a trace of attempted side effects (store commits, socket
broadcasts, email dispatches).  A caught-and-logged exception in a side
effect is embedded as an attempt whose success flag is false: control flow
continues regardless, exactly as the `try`/`except` blocks in the source do.
-/

namespace PacificSupport

/-- Abstract timestamp: one `datetime.utcnow()` reading. -/
abbrev Time := Nat

/-- Abstract Mongo ObjectId (the store-assigned document key). -/
abbrev ObjId := Nat

/-- An HTTP error as raised via `HTTPException(status_code, detail)`. -/
structure HErr where
  status : Nat
  detail : String
deriving DecidableEq

/-- Outcome of a handler: a successful payload or an `HTTPException`. -/
inductive HOut (α : Type) where
  | ok (a : α)
  | err (e : HErr)
deriving DecidableEq

def isOk {α : Type} : HOut α → Bool
  | .ok _ => true
  | .err _ => false

def resultOk? {α : Type} : HOut α → Option α
  | .ok a => some a
  | .err _ => none

/-- Embedded admin response document (`models.AdministratorResponse` /
the dict built in `add_admin_response`). -/
structure RespDoc where
  response_id : String
  admin_name : String
  response_text : String
  response_image_data : Option String
  created_at : Time
  is_read : Bool
deriving DecidableEq

/-- Embedded user comment document (`models.UserFeedbackComment`). -/
structure CommentDoc where
  comment_id : String
  user_name : String
  comment_text : String
  created_at : Time
deriving DecidableEq

/-- Embedded user feedback document (`models.UserFeedback`). -/
structure FeedbackDoc where
  rating : Option Int
  likes : Int
  dislikes : Int
  comments : List CommentDoc
  created_at : Option Time
  updated_at : Option Time
deriving DecidableEq

/-- A ticket document as stored in the Mongo collection.  Optional fields
model keys that may be absent on legacy documents; `admin_responses = []`
models an absent array (indistinguishable for every operation embedded
here), and `user_feedback = none` models an absent `user_feedback` key. -/
structure TicketDoc where
  reporter_name : Option String
  reporter_email : Option String
  reporter_department : Option String
  title : Option String
  description : Option String
  category : Option String
  priority : Option String
  location : Option String
  status : Option String
  image_data : Option String
  access_token : Option String
  admin_responses : List RespDoc
  last_response_date : Option Time
  user_feedback : Option FeedbackDoc
  is_viewed : Bool
  created_at : Option Time
  updated_at : Option Time
deriving DecidableEq

/-- `models.TicketStatus` membership. -/
def validStatus (s : String) : Bool :=
  s == "open" || s == "in_progress" || s == "resolved" || s == "closed"

/-- `models.IssueCategory` membership. -/
def validCategory (c : String) : Bool :=
  c == "furniture" || c == "it_equipment" || c == "facility" ||
  c == "utilities" || c == "safety" || c == "other"

/-- `models.IssuePriority` membership. -/
def validPriority (p : String) : Bool :=
  p == "low" || p == "medium" || p == "high" || p == "urgent"

/-- Pydantic `Field(..., min_length=1, max_length=mx)` check. -/
def strLen1 (s : String) (mx : Nat) : Bool :=
  1 ≤ s.length && s.length ≤ mx

/-- Pydantic validation of an embedded `AdministratorResponse`. -/
def validResp (r : RespDoc) : Bool :=
  strLen1 r.admin_name 100 && strLen1 r.response_text 2000

/-- Pydantic validation of an embedded `UserFeedback`. -/
def validFeedback (f : FeedbackDoc) : Bool :=
  (match f.rating with
   | none => true
   | some r => decide (1 ≤ r) && decide (r ≤ 5)) &&
  f.comments.all (fun c => strLen1 c.user_name 100 && strLen1 c.comment_text 1000)

/-- The parsed response model `models.Ticket` (what the endpoints that call
`Ticket(**doc)` return on success). -/
structure Ticket where
  id : String
  reporter_name : String
  reporter_email : String
  reporter_department : String
  title : String
  description : String
  category : String
  priority : String
  location : String
  status : String
  image_data : Option String
  access_token : String
  admin_responses : List RespDoc
  last_response_date : Option Time
  user_feedback : Option FeedbackDoc
  is_viewed : Bool
  created_at : Time
  updated_at : Time
deriving DecidableEq

/-- `Ticket(**doc)`: pydantic construction of the response model from a raw
document.  Fields declared without a default (`reporter_name`, emails,
`title`, `description`, `category`, `location`, `access_token`,
`created_at`, `updated_at`) must be present; `priority` and `status` fall
back to their declared defaults `medium` / `open`; every present value is
validated against the field constraints in `models.py`.  Returns `none`
exactly when pydantic would raise a `ValidationError`. -/
def ticketOfDoc (id : String) (d : TicketDoc) : Option Ticket := do
  let rn ← d.reporter_name
  let re ← d.reporter_email
  let rd ← d.reporter_department
  let ti ← d.title
  let de ← d.description
  let ca ← d.category
  let lo ← d.location
  let tok ← d.access_token
  let cr ← d.created_at
  let up ← d.updated_at
  let pr := d.priority.getD "medium"
  let st := d.status.getD "open"
  if strLen1 rn 100 && strLen1 rd 100 && strLen1 ti 200 && strLen1 de 2000 &&
     validCategory ca && validPriority pr && strLen1 lo 200 && validStatus st &&
     d.admin_responses.all validResp &&
     (match d.user_feedback with
      | none => true
      | some f => validFeedback f) then
    some { id := id, reporter_name := rn, reporter_email := re,
           reporter_department := rd, title := ti, description := de,
           category := ca, priority := pr, location := lo, status := st,
           image_data := d.image_data, access_token := tok,
           admin_responses := d.admin_responses,
           last_response_date := d.last_response_date,
           user_feedback := d.user_feedback, is_viewed := d.is_viewed,
           created_at := cr, updated_at := up }
  else none

/-- The ticket collection.  The document store (an external collaborator,
spec section 4.1) assigns fresh object ids on insert; this is modelled by an
increasing counter together with the well-formedness invariant `Store.wf`
that every id already in the collection lies below the counter.  The unique
sparse index on `access_token` (created in `startup_db`) is modelled inside
`createTicket`: an insert whose token is already present fails. -/
structure Store where
  tickets : List (ObjId × TicketDoc)
  nextId : ObjId
deriving DecidableEq

def Store.find (s : Store) (i : ObjId) : Option TicketDoc :=
  (s.tickets.find? (fun p => p.fst == i)).map Prod.snd

def Store.setDoc (s : Store) (i : ObjId) (d : TicketDoc) : Store :=
  { s with tickets := s.tickets.map (fun p => if p.fst == i then (i, d) else p) }

def Store.ids (s : Store) : List ObjId := s.tickets.map Prod.fst

def Store.tokens (s : Store) : List String :=
  s.tickets.filterMap (fun p => p.snd.access_token)

def Store.wf (s : Store) : Prop := ∀ i ∈ s.ids, i < s.nextId

/-- Drop leading whitespace characters. -/
def dropWS : List Char → List Char
  | [] => []
  | c :: cs => if c.isWhitespace then dropWS cs else c :: cs

/-- Python `str.strip()`: remove leading and trailing whitespace.  (Kept
as an executable structural definition rather than `String.trim`, which it
agrees with on the inputs modelled here.) -/
def pyStrip (s : String) : String :=
  ⟨dropWS ((dropWS s.data.reverse).reverse)⟩

/-- Python truthiness of an optional string obtained via `dict.get`:
an absent key (`None`) and the empty string are both falsy. -/
def truthyS : Option String → Bool
  | none => false
  | some s => !(s == "")

/-- One attempted side effect of a handler, in execution order.  `commit`
and `insert` are store mutations; `broadcast` and `email` carry the success
of the attempt (`false` when the underlying call raised and the handler
swallowed the exception with a logged warning). -/
inductive Effect where
  | commit (i : ObjId)
  | insert (i : ObjId)
  | broadcast (event : String) (succeeded : Bool)
  | email (recipient : String) (succeeded : Bool)
deriving DecidableEq

def isBroadcastE : Effect → Bool
  | .broadcast _ _ => true
  | _ => false

def isEmailE : Effect → Bool
  | .email _ _ => true
  | _ => false

/-- Detail string of the invalid-status 400 in `update_ticket`. -/
def statusMsg : String :=
  "Invalid status value. Must be one of: open, in_progress, resolved, closed"

/-- The `$set` applied by `update_ticket` (lines 322-330 of main.py):
`updated_at` is always refreshed; `status` is set only when the request
body carried a truthy status value. -/
def statusUpdatedDoc (t : TicketDoc) (body : Option String) (now : Time) :
    TicketDoc :=
  if truthyS body then { t with status := body, updated_at := some now }
  else { t with updated_at := some now }

/-- `PATCH /tickets/id` (`update_ticket`).  `tid` is the parsed
`ObjectId(ticket_id)` (`none` when the constructor raised), `body` the
value of the `status` key of the request dict, `now` the single
`datetime.utcnow()` reading, `bF`/`eF` whether the broadcast / email
attempt raises. -/
def updateTicket (s : Store) (tid : Option ObjId) (body : Option String)
    (now : Time) (bF eF : Bool) : HOut Ticket × Store × List Effect :=
  match tid with
  | none => (HOut.err ⟨400, "Invalid ticket ID format"⟩, s, [])
  | some i =>
    if truthyS body && !validStatus (body.getD "") then
      (HOut.err ⟨400, statusMsg⟩, s, [])
    else
      match s.find i with
      | none => (HOut.err ⟨404, "Ticket not found"⟩, s, [])
      | some t =>
        let t2 := statusUpdatedDoc t body now
        let s2 := s.setDoc i t2
        let tr :=
          [Effect.commit i, Effect.broadcast "ticket_updated" (!bF)] ++
          (if truthyS body && truthyS t.reporter_email then
            [Effect.email (t.reporter_email.getD "") (!eF)]
           else [])
        match ticketOfDoc (toString i) t2 with
        | some tk => (HOut.ok tk, s2, tr)
        | none => (HOut.err ⟨500, "Error updating ticket"⟩, s2, tr)

/-- The `$set` applied by `mark_ticket_viewed`. -/
def viewedDoc (t : TicketDoc) (now : Time) : TicketDoc :=
  { t with is_viewed := true, updated_at := some now }

/-- `PATCH /tickets/id/mark-viewed` (`mark_ticket_viewed`).  Note that the
handler performs no broadcast and no email dispatch. -/
def markTicketViewed (s : Store) (tid : Option ObjId) (now : Time) :
    HOut Ticket × Store × List Effect :=
  match tid with
  | none => (HOut.err ⟨400, "Invalid ticket ID"⟩, s, [])
  | some i =>
    match s.find i with
    | none => (HOut.err ⟨404, "Ticket not found"⟩, s, [])
    | some t =>
      let t2 := viewedDoc t now
      let s2 := s.setDoc i t2
      match ticketOfDoc (toString i) t2 with
      | some tk => (HOut.ok tk, s2, [Effect.commit i])
      | none => (HOut.err ⟨500, "Error marking viewed"⟩, s2, [Effect.commit i])

/-- The `$push`/`$set` applied by `add_admin_response`: append the new
response, refresh `updated_at` and `last_response_date` (two separate
`utcnow()` readings `n2`, `n3`). -/
def respondedDoc (t : TicketDoc) (r : RespDoc) (n2 n3 : Time) : TicketDoc :=
  { t with admin_responses := t.admin_responses ++ [r],
           updated_at := some n2, last_response_date := some n3 }

/-- `POST /tickets/id/responses` (`add_admin_response`).  The raw body
fields arrive via `dict.get` with default `""` and are stripped; the
response id is the supplied uuid and `n1` its `created_at` reading.  On
success the handler returns the raw updated document (no pydantic parse),
sends the reporter email first (if an email is on file) and broadcasts the
`new_response` event after it; both attempts are isolated by
`try`/`except`. -/
def addAdminResponse (s : Store) (tid : Option ObjId)
    (adminNameRaw respTextRaw : Option String) (respImage : Option String)
    (respUuid : String) (n1 n2 n3 : Time) (bF eF : Bool) :
    HOut TicketDoc × Store × List Effect :=
  match tid with
  | none => (HOut.err ⟨400, "Invalid ticket ID format"⟩, s, [])
  | some i =>
    let adminName := pyStrip (adminNameRaw.getD "")
    let respText := pyStrip (respTextRaw.getD "")
    if adminName == "" then
      (HOut.err ⟨400, "Admin name is required"⟩, s, [])
    else if respText == "" then
      (HOut.err ⟨400, "Response text is required"⟩, s, [])
    else
      let newResp : RespDoc :=
        ⟨respUuid, adminName, respText, respImage, n1, false⟩
      match s.find i with
      | none => (HOut.err ⟨404, "Ticket not found"⟩, s, [])
      | some t =>
        let t2 := respondedDoc t newResp n2 n3
        let s2 := s.setDoc i t2
        let tr :=
          [Effect.commit i] ++
          (if truthyS t.reporter_email then
            [Effect.email (t.reporter_email.getD "") (!eF)]
           else []) ++
          [Effect.broadcast "new_response" (!bF)]
        (HOut.ok t2, s2, tr)

/-- The positional-`$` update of `mark_response_as_read`: set `is_read` of
the first embedded response whose `response_id` matches.  No other field of
the ticket (in particular not `updated_at`) is touched. -/
def setFirstRead : List RespDoc → String → List RespDoc
  | [], _ => []
  | r :: rs, rid =>
    if r.response_id == rid then { r with is_read := true } :: rs
    else r :: setFirstRead rs rid

def readDoc (t : TicketDoc) (rid : String) : TicketDoc :=
  { t with admin_responses := setFirstRead t.admin_responses rid }

/-- `POST /tickets/id/responses/mark-read/response_id`
(`mark_response_as_read`).  The filter requires a document with the given
id containing a response with the given response id; `matched_count == 0`
yields 404.  On success the raw updated document is returned. -/
def markResponseRead (s : Store) (tid : Option ObjId) (rid : String) :
    HOut TicketDoc × Store × List Effect :=
  match tid with
  | none => (HOut.err ⟨400, "Invalid ticket ID format"⟩, s, [])
  | some i =>
    match s.find i with
    | some t =>
      if t.admin_responses.any (fun r => r.response_id == rid) then
        let t2 := readDoc t rid
        (HOut.ok t2, s.setDoc i t2, [Effect.commit i])
      else (HOut.err ⟨404, "Ticket or response not found"⟩, s, [])
    | none => (HOut.err ⟨404, "Ticket or response not found"⟩, s, [])

/-- The feedback value written by `rate_ticket`: initialise the aggregate
on first rating (`n1`, `n2` are the two `utcnow().isoformat()` readings of
the initialiser) or overwrite `rating` and refresh the feedback-level
`updated_at` (reading `n1`). -/
def ratedFeedback (uf : Option FeedbackDoc) (rating : Int) (n1 n2 : Time) :
    FeedbackDoc :=
  match uf with
  | none => ⟨some rating, 0, 0, [], some n1, some n2⟩
  | some f => { f with rating := some rating, updated_at := some n1 }

def ratedDoc (t : TicketDoc) (rating : Int) (n1 n2 : Time) : TicketDoc :=
  { t with user_feedback := some (ratedFeedback t.user_feedback rating n1 n2) }

/-- `POST /tickets/id/feedback/rate` (`rate_ticket`).  The handler has no
`except HTTPException: raise` clause, so every `HTTPException` raised
inside its `try` block (the out-of-range 400, the not-found 404 and the
unmodified 400) is caught by the final `except Exception` and re-raised as
a 500 whose detail embeds `str(e)`, which for an `HTTPException` is
`"status: detail"`.  Only the `bson.errors.InvalidId` of a malformed id (a
`ValueError`) keeps a 400. -/
def rateTicket (s : Store) (tid : Option ObjId) (rating : Int)
    (n1 n2 : Time) : HOut Int × Store × List Effect :=
  if !(decide (1 ≤ rating) && decide (rating ≤ 5)) then
    (HOut.err ⟨500, "Error rating ticket: 400: Rating must be between 1 and 5"⟩,
     s, [])
  else
    match tid with
    | none => (HOut.err ⟨400, "Invalid ticket ID format"⟩, s, [])
    | some i =>
      match s.find i with
      | none =>
        (HOut.err ⟨500, "Error rating ticket: 404: Ticket not found"⟩, s, [])
      | some t =>
        let t2 := ratedDoc t rating n1 n2
        if t2 == t then
          (HOut.err ⟨500, "Error rating ticket: 400: Failed to update ticket rating"⟩,
           s.setDoc i t2, [Effect.commit i])
        else (HOut.ok rating, s.setDoc i t2, [Effect.commit i])

/-- The feedback value written by `add_comment`: initialise the aggregate
if absent (readings `n1`, `n2`), append the new comment (created at `n3`)
and refresh the feedback-level `updated_at` (reading `n4`). -/
def commentedFeedback (uf : Option FeedbackDoc) (c : CommentDoc) (n1 n2 n4 : Time) :
    FeedbackDoc :=
  let f0 := match uf with
    | none => (⟨none, 0, 0, [], some n1, some n2⟩ : FeedbackDoc)
    | some f => f
  { f0 with comments := f0.comments ++ [c], updated_at := some n4 }

def commentedDoc (t : TicketDoc) (c : CommentDoc) (n1 n2 n4 : Time) : TicketDoc :=
  { t with user_feedback := some (commentedFeedback t.user_feedback c n1 n2 n4) }

/-- `POST /tickets/id/feedback/comment` (`add_comment`).  Like
`rate_ticket` this handler lacks `except HTTPException: raise`, so its
validation 400s and not-found 404 surface as 500s. -/
def addComment (s : Store) (tid : Option ObjId)
    (userName commentText : String) (cUuid : String) (n1 n2 n3 n4 : Time) :
    HOut String × Store × List Effect :=
  if pyStrip userName == "" then
    (HOut.err ⟨500, "Error adding comment: 400: User name is required"⟩, s, [])
  else if pyStrip commentText == "" then
    (HOut.err ⟨500, "Error adding comment: 400: Comment text is required"⟩, s, [])
  else
    match tid with
    | none => (HOut.err ⟨400, "Invalid ticket ID format"⟩, s, [])
    | some i =>
      match s.find i with
      | none =>
        (HOut.err ⟨500, "Error adding comment: 404: Ticket not found"⟩, s, [])
      | some t =>
        let c : CommentDoc := ⟨cUuid, pyStrip userName, pyStrip commentText, n3⟩
        let t2 := commentedDoc t c n1 n2 n4
        if t2 == t then
          (HOut.err ⟨500, "Error adding comment: 400: Failed to add comment"⟩,
           s.setDoc i t2, [Effect.commit i])
        else (HOut.ok cUuid, s.setDoc i t2, [Effect.commit i])

/-- The matched-document effect of the atomic update in `like_ticket`:
`$inc user_feedback.likes` (creating the nested path when the aggregate is
absent) and `$set user_feedback.updated_at`; `$setOnInsert` is skipped on a
matched update. -/
def likedFeedback (uf : Option FeedbackDoc) (now : Time) : FeedbackDoc :=
  match uf with
  | none => ⟨none, 1, 0, [], none, some now⟩
  | some f => { f with likes := f.likes + 1, updated_at := some now }

def likedDoc (t : TicketDoc) (now : Time) : TicketDoc :=
  { t with user_feedback := some (likedFeedback t.user_feedback now) }

/-- `POST /tickets/id/feedback/like` (`like_ticket`).  For a matched
document the counter increment is atomic.  For a well-formed id matching no
document the call runs an upsert whose outcome depends on the document
store's semantics for the conflicting `$setOnInsert user_feedback` /
`$inc user_feedback.likes` paths, which the specification does not pin
down; it is modelled here as an infrastructure error surfaced as 500, and
no theorem below relies on that branch. -/
def likeTicket (s : Store) (tid : Option ObjId) (now : Time) :
    HOut Int × Store × List Effect :=
  match tid with
  | none => (HOut.err ⟨400, "Invalid ticket ID format"⟩, s, [])
  | some i =>
    match s.find i with
    | some t =>
      let t2 := likedDoc t now
      (HOut.ok (likedFeedback t.user_feedback now).likes,
       s.setDoc i t2, [Effect.commit i])
    | none => (HOut.err ⟨500, "Error liking ticket"⟩, s, [])

def dislikedFeedback (uf : Option FeedbackDoc) (now : Time) : FeedbackDoc :=
  match uf with
  | none => ⟨none, 0, 1, [], none, some now⟩
  | some f => { f with dislikes := f.dislikes + 1, updated_at := some now }

def dislikedDoc (t : TicketDoc) (now : Time) : TicketDoc :=
  { t with user_feedback := some (dislikedFeedback t.user_feedback now) }

/-- `POST /tickets/id/feedback/dislike` (`dislike_ticket`), the mirror
image of `likeTicket`. -/
def dislikeTicket (s : Store) (tid : Option ObjId) (now : Time) :
    HOut Int × Store × List Effect :=
  match tid with
  | none => (HOut.err ⟨400, "Invalid ticket ID format"⟩, s, [])
  | some i =>
    match s.find i with
    | some t =>
      let t2 := dislikedDoc t now
      (HOut.ok (dislikedFeedback t.user_feedback now).dislikes,
       s.setDoc i t2, [Effect.commit i])
    | none => (HOut.err ⟨500, "Error disliking ticket"⟩, s, [])

/-- The feedback value written by `delete_comment` when an aggregate is
present: drop every comment with the given id and refresh the
feedback-level `updated_at`. -/
def unCommentedFeedback (f : FeedbackDoc) (cid : String) (now : Time) :
    FeedbackDoc :=
  { f with comments := f.comments.filter (fun c => !(c.comment_id == cid)),
           updated_at := some now }

def unCommentedDoc (t : TicketDoc) (cid : String) (now : Time) : TicketDoc :=
  match t.user_feedback with
  | none => t
  | some f => { t with user_feedback := some (unCommentedFeedback f cid now) }

/-- `DELETE /tickets/id/feedback/comment/comment_id` (`delete_comment`).
When the ticket has no feedback aggregate the handler skips the update and
still reports success.  Like `rate_ticket` it lacks
`except HTTPException: raise`, so its 404/400 surface as 500s. -/
def deleteComment (s : Store) (tid : Option ObjId) (cid : String)
    (now : Time) : HOut Unit × Store × List Effect :=
  match tid with
  | none => (HOut.err ⟨400, "Invalid ticket ID or comment ID format"⟩, s, [])
  | some i =>
    match s.find i with
    | none =>
      (HOut.err ⟨500, "Error deleting comment: 404: Ticket not found"⟩, s, [])
    | some t =>
      match t.user_feedback with
      | none => (HOut.ok (), s, [])
      | some f =>
        let t2 := { t with user_feedback := some (unCommentedFeedback f cid now) }
        if t2 == t then
          (HOut.err ⟨500, "Error deleting comment: 400: Failed to delete comment"⟩,
           s.setDoc i t2, [Effect.commit i])
        else (HOut.ok (), s.setDoc i t2, [Effect.commit i])

/-- The six non-token backward-compatibility defaults applied per document
by `get_tickets` (lines 117-128 of main.py): a present key is kept, an
absent one is filled. -/
def backfill0 (d : TicketDoc) : TicketDoc :=
  { d with reporter_name := some (d.reporter_name.getD "Unknown"),
           reporter_email := some (d.reporter_email.getD "unknown@example.com"),
           reporter_department := some (d.reporter_department.getD "N/A"),
           category := some (d.category.getD "other"),
           priority := some (d.priority.getD "medium"),
           location := some (d.location.getD "N/A") }

/-- The full per-document backfill of `get_tickets`, with `tok` the freshly
generated `uuid4` used when `access_token` is absent. -/
def backfillTok (d : TicketDoc) (tok : String) : TicketDoc :=
  { backfill0 d with access_token := some (d.access_token.getD tok) }

/-- Comparison placing `a` before `b` in the `created_at`-descending cursor
order; a document missing `created_at` sorts last, as missing fields do in
a Mongo descending sort. -/
def cmpDesc (a b : Option Time) : Bool :=
  match a, b with
  | some x, some y => y ≤ x
  | some _, none => true
  | none, some _ => false
  | none, none => true

def insertDesc (p : ObjId × TicketDoc) :
    List (ObjId × TicketDoc) → List (ObjId × TicketDoc)
  | [] => [p]
  | q :: rest =>
    if cmpDesc p.snd.created_at q.snd.created_at then p :: q :: rest
    else q :: insertDesc p rest

/-- The `find().sort("created_at", -1)` cursor of `get_tickets`. -/
def sortByCreatedDesc : List (ObjId × TicketDoc) → List (ObjId × TicketDoc)
  | [] => []
  | p :: rest => insertDesc p (sortByCreatedDesc rest)

/-- Walk the cursor applying the backfill; `g` is the `uuid4` generator and
`k` the number of uuids consumed so far (one per document whose
`access_token` is absent). -/
def backfillAll (g : Nat → String) :
    List (ObjId × TicketDoc) → Nat → List (String × TicketDoc)
  | [], _ => []
  | (i, d) :: rest, k =>
    match d.access_token with
    | some _ => (toString i, backfillTok d (g k)) :: backfillAll g rest k
    | none => (toString i, backfillTok d (g k)) :: backfillAll g rest (k + 1)

/-- `Ticket(**t)` applied to every backfilled document; the first
`ValidationError` aborts the whole listing, as the exception escapes the
`async for` loop in `get_tickets`. -/
def allParse : List (String × TicketDoc) → Option (List Ticket)
  | [] => some []
  | (id, d) :: rest =>
    match ticketOfDoc id d with
    | some t => (allParse rest).map (fun ts => t :: ts)
    | none => none

/-- `GET /tickets` (`get_tickets`). -/
def getTickets (s : Store) (g : Nat → String) :
    HOut (List Ticket) × Store × List Effect :=
  match allParse (backfillAll g (sortByCreatedDesc s.tickets) 0) with
  | some ts => (HOut.ok ts, s, [])
  | none => (HOut.err ⟨500, "Error retrieving tickets"⟩, s, [])

/-- `GET /tickets/id` (`get_ticket`).  No backward-compatibility backfill
is applied: the raw document goes straight into `Ticket(**ticket)`. -/
def getTicket (s : Store) (tid : Option ObjId) :
    HOut Ticket × Store × List Effect :=
  match tid with
  | none => (HOut.err ⟨400, "Invalid ticket ID format"⟩, s, [])
  | some i =>
    match s.find i with
    | none => (HOut.err ⟨404, "Ticket not found"⟩, s, [])
    | some d =>
      match ticketOfDoc (toString i) d with
      | some t => (HOut.ok t, s, [])
      | none => (HOut.err ⟨500, "Error retrieving ticket"⟩, s, [])

def Store.findByToken (s : Store) (tok : String) : Option (ObjId × TicketDoc) :=
  s.tickets.find? (fun p => p.snd.access_token == some tok)

/-- `GET /tickets/token/access_token` (`get_ticket_by_token`).  Again no
backfill before `Ticket(**ticket)`. -/
def getTicketByToken (s : Store) (tok : String) :
    HOut Ticket × Store × List Effect :=
  match s.findByToken tok with
  | none => (HOut.err ⟨404, "Ticket not found with this token"⟩, s, [])
  | some (i, d) =>
    match ticketOfDoc (toString i) d with
    | some t => (HOut.ok t, s, [])
    | none => (HOut.err ⟨500, "Error retrieving ticket"⟩, s, [])

/-- A creation request after pydantic validation of `TicketCreate`
(`models.py`): the declared defaults `priority = medium` and
`status = open` have already been applied for omitted body keys, and the
field constraints hold (captured separately by `ValidCreate`).  The
`admin_responses` / `user_feedback` / `is_viewed` members of `TicketBase`
are accepted by pydantic but dropped by `create_ticket` when it builds the
document, so they are not modelled here. -/
structure TicketCreate where
  reporter_name : String
  reporter_email : String
  reporter_department : String
  title : String
  description : String
  category : String
  priority : String
  location : String
  status : String
  image_data : Option String
deriving DecidableEq

/-- The pydantic boundary validation of `TicketCreate`. -/
def ValidCreate (tc : TicketCreate) : Prop :=
  strLen1 tc.reporter_name 100 = true ∧
  strLen1 tc.reporter_department 100 = true ∧
  strLen1 tc.title 200 = true ∧
  strLen1 tc.description 2000 = true ∧
  validCategory tc.category = true ∧
  validPriority tc.priority = true ∧
  strLen1 tc.location 200 = true ∧
  validStatus tc.status = true

instance (tc : TicketCreate) : Decidable (ValidCreate tc) := by
  unfold ValidCreate; infer_instance

/-- Pydantic parse of the optional `status` key of a creation body: an
omitted key yields the declared default `open`; a present value must be a
member of `TicketStatus`. -/
def parsedStatus (raw : Option String) : Option String :=
  match raw with
  | none => some "open"
  | some st => if validStatus st then some st else none

/-- The document inserted by `create_ticket`: `n1` and `n2` are the two
separate `datetime.utcnow()` readings taken for `created_at` and
`updated_at` (lines 174-175 of main.py). -/
def createdDoc (tc : TicketCreate) (tok : String) (n1 n2 : Time) : TicketDoc :=
  { reporter_name := some tc.reporter_name,
    reporter_email := some tc.reporter_email,
    reporter_department := some tc.reporter_department,
    title := some tc.title, description := some tc.description,
    category := some tc.category, priority := some tc.priority,
    location := some tc.location, status := some tc.status,
    image_data := tc.image_data, access_token := some tok,
    admin_responses := [], last_response_date := none,
    user_feedback := none, is_viewed := false,
    created_at := some n1, updated_at := some n2 }

/-- `POST /tickets` (`create_ticket`).  `tok` is the generated `uuid4`
access token.  The unique sparse index on `access_token` makes the insert
fail when the token is already taken, and that `DuplicateKeyError` is
caught by the handler's `except Exception` and surfaced as a 500.  The
`new_ticket` broadcast is attempted after the insert; its failure is
swallowed. -/
def createTicket (s : Store) (tc : TicketCreate) (tok : String)
    (n1 n2 : Time) (bF : Bool) : HOut Ticket × Store × List Effect :=
  if s.tokens.contains tok then
    (HOut.err ⟨500, "Error creating ticket"⟩, s, [])
  else
    let i := s.nextId
    let doc := createdDoc tc tok n1 n2
    let s2 : Store := ⟨s.tickets ++ [(i, doc)], s.nextId + 1⟩
    let tr := [Effect.insert i, Effect.broadcast "new_ticket" (!bF)]
    match ticketOfDoc (toString i) doc with
    | some t => (HOut.ok t, s2, tr)
    | none => (HOut.err ⟨500, "Error creating ticket"⟩, s2, tr)

/-- One `sio.emit` call of the websocket manager: the event name, the
namespace it goes to and the explicit recipient list. -/
structure Emit where
  event : String
  ns : String
  recipients : List String
deriving DecidableEq

/-- `broadcast_ticket_update` of websocket_manager.py: emit
`ticket_updated` to the admin namespace when the admin set is non-empty,
and to the user connections whose tracked email equals the ticket's
reporter email when that email is truthy.  `admins` is `connected_admins`
and `users` the `connected_users` sid-to-email map as a list of pairs. -/
def broadcastTicketUpdate (admins : List String)
    (users : List (String × String)) (ticketId : String) (d : TicketDoc)
    (updateType : String) : List Emit :=
  (if admins.isEmpty then []
   else [⟨"ticket_updated", "/admin", admins⟩]) ++
  (if truthyS d.reporter_email then
    [⟨"ticket_updated", "/user",
      (users.filter (fun p => some p.snd == d.reporter_email)).map Prod.fst⟩]
   else [])

/-- A BSON-ish runtime value as handled by `serialize_ticket` in
websocket_manager.py: primitives, raw store ObjectIds, native datetimes,
lists and string-keyed dicts. -/
inductive Value where
  | vNull
  | vStr (s : String)
  | vInt (n : Int)
  | vBool (b : Bool)
  | vOid (hex : String)
  | vDate (t : Nat)
  | vList (items : List Value)
  | vDict (fields : List (String × Value))

/-- `datetime.isoformat()`, abstracted to an injective rendering. -/
def isoformat (t : Nat) : String := "1970-01-01T00:00:" ++ toString t

mutual

/-- `serialize_ticket(ticket_data)` applied to the fields of a dict. -/
def serializeTicketV : List (String × Value) → List (String × Value)
  | [] => []
  | (k, v) :: rest => (k, serializeField v) :: serializeTicketV rest

/-- The per-value dispatch of the loop body of `serialize_ticket`:
`ObjectId` to `str`, `datetime` to `isoformat`, dict recursion, and for a
list the element-wise mapping that recurses only into dict elements. -/
def serializeField : Value → Value
  | .vOid hex => .vStr hex
  | .vDate t => .vStr (isoformat t)
  | .vDict fields => .vDict (serializeTicketV fields)
  | .vList items => .vList (serializeElems items)
  | v => v

/-- `[serialize_ticket(item) if isinstance(item, dict) else item
for item in value]`. -/
def serializeElems : List Value → List Value
  | [] => []
  | item :: rest =>
    (match item with
     | .vDict fields => .vDict (serializeTicketV fields)
     | v => v) :: serializeElems rest

end

mutual

/-- Whether a raw `ObjectId` or native `datetime` survives anywhere inside
the value. -/
def hasRawV : Value → Bool
  | .vOid _ => true
  | .vDate _ => true
  | .vDict fields => hasRawKVs fields
  | .vList items => hasRawL items
  | _ => false

def hasRawKVs : List (String × Value) → Bool
  | [] => false
  | (_, v) :: rest => hasRawV v || hasRawKVs rest

def hasRawL : List Value → Bool
  | [] => false
  | v :: rest => hasRawV v || hasRawL rest

end

mutual

/-- The positions `serialize_ticket` actually normalizes: a raw ObjectId or
datetime sitting directly as a dict value is fine, dicts recurse, and a
list element is reached only when it is itself a dict — any other list
element must already be free of raw values. -/
def okField : Value → Bool
  | .vOid _ => true
  | .vDate _ => true
  | .vDict fields => okKVs fields
  | .vList items => okElems items
  | _ => true

def okKVs : List (String × Value) → Bool
  | [] => true
  | (_, v) :: rest => okField v && okKVs rest

def okElems : List Value → Bool
  | [] => true
  | item :: rest =>
    (match item with
     | .vDict fields => okKVs fields
     | v => !(hasRawV v)) && okElems rest

end

/-- Validity of a raw document under `Ticket(**doc)`, as one boolean:
every required field present plus every field constraint of `models.py`.
`ticketOfDoc_spec` proves it equivalent to the parse succeeding. -/
def docOk (d : TicketDoc) : Bool :=
  d.reporter_name.isSome && d.reporter_email.isSome &&
  d.reporter_department.isSome && d.title.isSome && d.description.isSome &&
  d.category.isSome && d.location.isSome && d.access_token.isSome &&
  d.created_at.isSome && d.updated_at.isSome &&
  (strLen1 (d.reporter_name.getD "") 100 &&
   strLen1 (d.reporter_department.getD "") 100 &&
   strLen1 (d.title.getD "") 200 && strLen1 (d.description.getD "") 2000 &&
   validCategory (d.category.getD "") &&
   validPriority (d.priority.getD "medium") &&
   strLen1 (d.location.getD "") 200 && validStatus (d.status.getD "open") &&
   d.admin_responses.all validResp &&
   (match d.user_feedback with
    | none => true
    | some f => validFeedback f))

/-- Lift a check over an optional field: an absent field passes. -/
def optPred (P : String → Bool) : Option String → Bool
  | none => true
  | some x => P x

/-- A legacy document that the `get_tickets` backfill can repair: the
fields the backfill never touches (`title`, `description`, `created_at`,
`updated_at`) must be present and valid, every present optional field must
be valid, and the embedded documents must validate. -/
def CoreOk (d : TicketDoc) : Bool :=
  optPred (fun x => strLen1 x 100) d.reporter_name &&
  (optPred (fun x => strLen1 x 100) d.reporter_department &&
  (d.title.isSome && (optPred (fun x => strLen1 x 200) d.title &&
  (d.description.isSome && (optPred (fun x => strLen1 x 2000) d.description &&
  (optPred validCategory d.category &&
  (optPred validPriority d.priority &&
  (optPred (fun x => strLen1 x 200) d.location &&
  (optPred validStatus d.status &&
  (d.created_at.isSome && (d.updated_at.isSome &&
  (d.admin_responses.all validResp &&
  (match d.user_feedback with
   | none => true
   | some f => validFeedback f)))))))))))))

/-- The ticket-level timestamp invariant: whenever both timestamps are
present, `updated_at` is at least `created_at`. -/
def UpdGeCre (d : TicketDoc) : Prop :=
  ∀ c u, d.created_at = some c → d.updated_at = some u → c ≤ u

/-- The side-effect ordering asserted by the specification for the two
notification-bearing mutations: every broadcast attempt comes no later
than every email attempt. -/
def claimOrderC1 (tr : List Effect) : Prop :=
  ∀ b e : Fin tr.length, isBroadcastE (tr.get b) = true →
    isEmailE (tr.get e) = true → b.val ≤ e.val

instance (tr : List Effect) : Decidable (claimOrderC1 tr) := by
  unfold claimOrderC1; infer_instance

/-- A fully populated, valid stored document used as a concrete test
vector. -/
def demoDoc : TicketDoc :=
  { reporter_name := some "Ana", reporter_email := some "ana@x.com",
    reporter_department := some "IT", title := some "Broken chair",
    description := some "Leg snapped", category := some "furniture",
    priority := some "medium", location := some "HQ",
    status := some "open", image_data := none,
    access_token := some "tok-demo", admin_responses := [],
    last_response_date := none, user_feedback := none, is_viewed := false,
    created_at := some 1, updated_at := some 5 }

/-- `demoDoc` with one unread admin response embedded. -/
def demoDocResp : TicketDoc :=
  { demoDoc with admin_responses := [⟨"r6", "Bob", "On it", none, 3, false⟩] }

/-- A legacy document missing `access_token` (and several other optional
fields) but carrying everything the list backfill cannot invent. -/
def legacyDoc : TicketDoc :=
  { reporter_name := none, reporter_email := none,
    reporter_department := none, title := some "Old ticket",
    description := some "Filed before tokens existed", category := none,
    priority := none, location := none, status := none, image_data := none,
    access_token := none, admin_responses := [], last_response_date := none,
    user_feedback := none, is_viewed := false,
    created_at := some 1, updated_at := some 1 }

/-- A legacy document that does carry an `access_token` (so the by-token
lookup can find it) but is missing `reporter_name`, a field the response
model requires and only the list backfill repairs. -/
def legacyDocTok : TicketDoc :=
  { legacyDoc with access_token := some "tok-legacy" }

/-- A deterministic stand-in for the `uuid4` stream consumed by the list
backfill. -/
def demoGen : Nat → String := fun n => String.append "legacy-token-" (toString n)

/-- A valid creation request used as a concrete test vector. -/
def demoCreate : TicketCreate :=
  { reporter_name := "Ana", reporter_email := "ana@x.com",
    reporter_department := "IT", title := "Broken chair",
    description := "Leg snapped", category := "furniture",
    priority := "medium", location := "HQ", status := "open",
    image_data := none }

mutual

theorem okField_clean :
    (v : Value) → okField v = true → hasRawV (serializeField v) = false
  | .vNull, _ => by simp [serializeField, hasRawV]
  | .vStr _, _ => by simp [serializeField, hasRawV]
  | .vInt _, _ => by simp [serializeField, hasRawV]
  | .vBool _, _ => by simp [serializeField, hasRawV]
  | .vOid _, _ => by simp [serializeField, hasRawV]
  | .vDate _, _ => by simp [serializeField, hasRawV]
  | .vDict fields, h => by
    simp only [okField] at h
    simpa only [serializeField, hasRawV] using okKVs_clean fields h
  | .vList items, h => by
    simp only [okField] at h
    simpa only [serializeField, hasRawV] using okElems_clean items h

theorem okKVs_clean :
    (fs : List (String × Value)) → okKVs fs = true →
      hasRawKVs (serializeTicketV fs) = false
  | [], _ => by simp [serializeTicketV, hasRawKVs]
  | (k, v) :: rest, h => by
    simp only [okKVs, Bool.and_eq_true] at h
    simp only [serializeTicketV, hasRawKVs, Bool.or_eq_false_iff]
    exact ⟨okField_clean v h.1, okKVs_clean rest h.2⟩

theorem okElems_clean :
    (l : List Value) → okElems l = true → hasRawL (serializeElems l) = false
  | [], _ => by simp [serializeElems, hasRawL]
  | .vDict fields :: rest, h => by
    simp only [okElems, Bool.and_eq_true] at h
    simp only [serializeElems, hasRawL, hasRawV, Bool.or_eq_false_iff]
    exact ⟨okKVs_clean fields h.1, okElems_clean rest h.2⟩
  | .vNull :: rest, h => by
    simp only [okElems, Bool.and_eq_true] at h
    simp only [serializeElems, hasRawL, hasRawV, Bool.or_eq_false_iff]
    exact ⟨trivial, okElems_clean rest h.2⟩
  | .vStr _ :: rest, h => by
    simp only [okElems, Bool.and_eq_true] at h
    simp only [serializeElems, hasRawL, hasRawV, Bool.or_eq_false_iff]
    exact ⟨trivial, okElems_clean rest h.2⟩
  | .vInt _ :: rest, h => by
    simp only [okElems, Bool.and_eq_true] at h
    simp only [serializeElems, hasRawL, hasRawV, Bool.or_eq_false_iff]
    exact ⟨trivial, okElems_clean rest h.2⟩
  | .vBool _ :: rest, h => by
    simp only [okElems, Bool.and_eq_true] at h
    simp only [serializeElems, hasRawL, hasRawV, Bool.or_eq_false_iff]
    exact ⟨trivial, okElems_clean rest h.2⟩
  | .vOid _ :: rest, h => by
    simp only [okElems, hasRawV, Bool.not_true, Bool.false_and] at h
    exact absurd h (by simp)
  | .vDate _ :: rest, h => by
    simp only [okElems, hasRawV, Bool.not_true, Bool.false_and] at h
    exact absurd h (by simp)
  | .vList items :: rest, h => by
    simp only [okElems, Bool.and_eq_true, Bool.not_eq_true'] at h
    simp only [serializeElems, hasRawL, hasRawV, Bool.or_eq_false_iff]
    exact ⟨by simpa only [hasRawV] using h.1, okElems_clean rest h.2⟩

end

/-- C4: the claim that `serialize_ticket` leaves no store ObjectId and no
native datetime unconverted at any nesting depth, including values stored
directly inside lists, is false: a datetime that is a direct list element
is returned unchanged, because the list branch recurses only into elements
that are dicts.  Concretely, serializing a dict holding a list with a bare
datetime returns the payload with the datetime intact. -/
theorem C4_counterexample :
    serializeTicketV [("history", Value.vList [Value.vDate 0])] =
      [("history", Value.vList [Value.vDate 0])] ∧
    hasRawKVs (serializeTicketV [("history", Value.vList [Value.vDate 0])]) =
      true := by
  constructor
  · simp [serializeTicketV, serializeField, serializeElems]
  · simp [serializeTicketV, serializeField, serializeElems, hasRawKVs,
          hasRawV, hasRawL]

/-- C4 (amended): `serialize_ticket` converts every store ObjectId and
native datetime that sits as a dict value, recursing through nested dicts
and through dict elements of lists; but an ObjectId or datetime that is a
direct (non-dict) list element — or anything inside a list nested directly
in a list — is passed through unconverted.  For every payload whose raw
values all occupy normalized positions (`okKVs`), the serialized output
contains no raw value at any depth. -/
theorem C4_serialize_normalizes (fs : List (String × Value))
    (h : okKVs fs = true) : hasRawKVs (serializeTicketV fs) = false :=
  okKVs_clean fs h

/-- Witness for C4: a payload with a datetime dict value, an ObjectId dict
value and a datetime inside a dict inside a list is fully normalized. -/
theorem C4_witness :
    okKVs [("_id", Value.vOid "a1"), ("created_at", Value.vDate 7),
           ("admin_responses",
            Value.vList [Value.vDict [("created_at", Value.vDate 9)]])] = true ∧
    hasRawKVs (serializeTicketV
      [("_id", Value.vOid "a1"), ("created_at", Value.vDate 7),
       ("admin_responses",
        Value.vList [Value.vDict [("created_at", Value.vDate 9)]])]) = false := by
  refine ⟨?_, C4_serialize_normalizes _ ?_⟩ <;>
    simp [okKVs, okField, okElems, hasRawV]

theorem find?_map_set (l : List (ObjId × TicketDoc)) (i : ObjId) (d : TicketDoc)
    (h : (l.find? (fun p => p.fst == i)).isSome = true) :
    ((l.map (fun p => if p.fst == i then (i, d) else p)).find?
      (fun p => p.fst == i)) = some (i, d) := by
  induction l with
  | nil => simp at h
  | cons p rest ih =>
    by_cases hp : p.fst = i
    · simp [List.find?, hp]
    · have hp' : (p.fst == i) = false := by simp [hp]
      simp only [List.map_cons, hp', Bool.false_eq_true, if_false, List.find?_cons]
      apply ih
      simpa [List.find?_cons, hp'] using h

theorem Store.find_setDoc_self (s : Store) (i : ObjId) (d t : TicketDoc)
    (h : s.find i = some t) : (s.setDoc i d).find i = some d := by
  have hs : ((s.tickets.find? (fun p => p.fst == i)).isSome) = true := by
    unfold Store.find at h
    cases hf : s.tickets.find? (fun p => p.fst == i) with
    | none => rw [hf] at h; simp at h
    | some q => simp [hf]
  unfold Store.find Store.setDoc
  rw [find?_map_set s.tickets i d hs]
  rfl

theorem isSome_ite_some_none {α : Type} (c : Bool) (a : α) :
    (if c then some a else none).isSome = c := by
  cases c <;> simp

theorem ticketOfDoc_spec (id : String) (d : TicketDoc) :
    (ticketOfDoc id d).isSome = docOk d ∧
    ∀ tk, ticketOfDoc id d = some tk →
      (tk.id = id ∧ d.reporter_name = some tk.reporter_name ∧
       d.reporter_email = some tk.reporter_email ∧
       d.reporter_department = some tk.reporter_department ∧
       d.title = some tk.title ∧ d.description = some tk.description ∧
       d.category = some tk.category ∧
       tk.priority = d.priority.getD "medium" ∧
       d.location = some tk.location ∧
       tk.status = d.status.getD "open" ∧
       d.access_token = some tk.access_token ∧
       d.created_at = some tk.created_at ∧
       d.updated_at = some tk.updated_at) := by
  rcases d with ⟨rn, re, rd, ti, de, ca, pr, lo, st, im, tok, ar, lrd, uf, iv, cr, up⟩
  cases rn with
  | none =>
    refine ⟨?_, fun tk h => Option.noConfusion h⟩
    simp only [docOk, Option.isSome_none, Option.isSome_some,
               Bool.false_and, Bool.true_and, Bool.and_false]
    rfl
  | some rn =>
    cases re with
    | none =>
      refine ⟨?_, fun tk h => Option.noConfusion h⟩
      simp only [docOk, Option.isSome_none, Option.isSome_some,
                 Bool.false_and, Bool.true_and, Bool.and_false]
      rfl
    | some re =>
      cases rd with
      | none =>
        refine ⟨?_, fun tk h => Option.noConfusion h⟩
        simp only [docOk, Option.isSome_none, Option.isSome_some,
                   Bool.false_and, Bool.true_and, Bool.and_false]
        rfl
      | some rd =>
        cases ti with
        | none =>
          refine ⟨?_, fun tk h => Option.noConfusion h⟩
          simp only [docOk, Option.isSome_none, Option.isSome_some,
                     Bool.false_and, Bool.true_and, Bool.and_false]
          rfl
        | some ti =>
          cases de with
          | none =>
            refine ⟨?_, fun tk h => Option.noConfusion h⟩
            simp only [docOk, Option.isSome_none, Option.isSome_some,
                       Bool.false_and, Bool.true_and, Bool.and_false]
            rfl
          | some de =>
            cases ca with
            | none =>
              refine ⟨?_, fun tk h => Option.noConfusion h⟩
              simp only [docOk, Option.isSome_none, Option.isSome_some,
                         Bool.false_and, Bool.true_and, Bool.and_false]
              rfl
            | some ca =>
              cases lo with
              | none =>
                refine ⟨?_, fun tk h => Option.noConfusion h⟩
                simp only [docOk, Option.isSome_none, Option.isSome_some,
                           Bool.false_and, Bool.true_and, Bool.and_false]
                rfl
              | some lo =>
                cases tok with
                | none =>
                  refine ⟨?_, fun tk h => Option.noConfusion h⟩
                  simp only [docOk, Option.isSome_none, Option.isSome_some,
                             Bool.false_and, Bool.true_and, Bool.and_false]
                  rfl
                | some tok =>
                  cases cr with
                  | none =>
                    refine ⟨?_, fun tk h => Option.noConfusion h⟩
                    simp only [docOk, Option.isSome_none, Option.isSome_some,
                               Bool.false_and, Bool.true_and, Bool.and_false]
                    rfl
                  | some cr =>
                    cases up with
                    | none =>
                      refine ⟨?_, fun tk h => Option.noConfusion h⟩
                      simp only [docOk, Option.isSome_none, Option.isSome_some,
                                 Bool.false_and, Bool.true_and, Bool.and_false]
                      rfl
                    | some up =>
                      constructor
                      · simp only [docOk, Option.isSome_some, Bool.true_and]
                        exact isSome_ite_some_none _ _
                      · intro tk h
                        simp only [ticketOfDoc] at h
                        dsimp only [Bind.bind, Option.bind] at h
                        rw [Option.ite_none_right_eq_some] at h
                        obtain ⟨hC, hR⟩ := h
                        cases hR
                        exact ⟨rfl, rfl, rfl, rfl, rfl, rfl, rfl, rfl, rfl, rfl, rfl, rfl, rfl⟩

theorem docOk_statusUpdated (t : TicketDoc) (body : Option String) (now : Time)
    (h : docOk t = true)
    (hv : truthyS body = true → validStatus (body.getD "") = true) :
    docOk (statusUpdatedDoc t body now) = true := by
  unfold statusUpdatedDoc
  split
  · rename_i hb
    cases body with
    | none => simp [truthyS] at hb
    | some bs =>
      have hvb : validStatus bs = true := by simpa using hv hb
      simp only [docOk, Bool.and_eq_true] at h ⊢
      simp only [Option.isSome_some, Option.getD_some, hvb]
      tauto
  · simp only [docOk, Bool.and_eq_true] at h ⊢
    simp only [Option.isSome_some]
    tauto

theorem docOk_created (tc : TicketCreate) (tok : String) (n1 n2 : Time)
    (hv : ValidCreate tc) : docOk (createdDoc tc tok n1 n2) = true := by
  obtain ⟨h1, h2, h3, h4, h5, h6, h7, h8⟩ := hv
  simp [docOk, createdDoc, h1, h2, h3, h4, h5, h6, h7, h8, validResp]

theorem tokens_contains_mem (s : Store) (tok : String)
    (h : s.tokens.contains tok = false) : tok ∉ s.tokens := by
  intro hm
  simp [List.contains, List.elem_eq_mem, hm] at h

theorem truthyS_iff (o : Option String) :
    truthyS o = true ↔ ∃ x, o = some x ∧ x ≠ "" := by
  cases o <;> simp [truthyS]

/-- C2: a rating outside the integer range 1..5 is rejected before any
store mutation and the store (hence the ticket's `user_feedback`) is
untouched — but the rejection does NOT carry the 400-class status the
handler intends: `rate_ticket` lacks an `except HTTPException: raise`
clause, so its own `HTTPException(400, "Rating must be between 1 and 5")`
is captured by the trailing `except Exception` and re-raised as a 500
whose detail merely quotes the original error.  The store-preservation and
early-rejection parts of the claim hold; the status-code part is a slip in
the code (every other handler has the re-raise clause and the spec's error
taxonomy demands a 400). -/
theorem C2_rate_out_of_range (s : Store) (tid : Option ObjId) (rating : Int)
    (n1 n2 : Time) (h : rating < 1 ∨ 5 < rating) :
    rateTicket s tid rating n1 n2 =
      (HOut.err ⟨500, "Error rating ticket: 400: Rating must be between 1 and 5"⟩,
       s, []) := by
  have hc : (decide (1 ≤ rating) && decide (rating ≤ 5)) = false := by
    rcases h with h | h
    · have hd : decide (1 ≤ rating) = false := decide_eq_false (by omega)
      simp [hd]
    · have hd : decide (rating ≤ 5) = false := decide_eq_false (by omega)
      simp [hd]
  simp [rateTicket, hc]

/-- Witness for C2 at the concrete out-of-range rating 0. -/
theorem C2_witness :
    ((0 : Int) < 1 ∨ 5 < (0 : Int)) ∧
    rateTicket ⟨[(0, demoDoc)], 1⟩ (some 0) 0 8 9 =
      (HOut.err ⟨500, "Error rating ticket: 400: Rating must be between 1 and 5"⟩,
       ⟨[(0, demoDoc)], 1⟩, []) :=
  ⟨Or.inl (by decide),
   C2_rate_out_of_range ⟨[(0, demoDoc)], 1⟩ (some 0) 0 8 9 (Or.inl (by decide))⟩

/-- C10: a status-update request whose body omits the `status` key or
carries the empty string passes the (truthiness-guarded) validation, so
for an existing ticket the update commits with only `updated_at`
refreshed, the `ticket_updated` broadcast is still attempted, no email is
attempted, and — whenever the stored document is model-valid — the
operation succeeds. -/
theorem C10_empty_status_update (s : Store) (i : ObjId) (t : TicketDoc)
    (body : Option String) (now : Time) (bF eF : Bool)
    (hb : body = none ∨ body = some "") (ht : s.find i = some t) :
    (updateTicket s (some i) body now bF eF).2.1 =
        s.setDoc i { t with updated_at := some now } ∧
    (updateTicket s (some i) body now bF eF).2.2 =
        [Effect.commit i, Effect.broadcast "ticket_updated" (!bF)] ∧
    (docOk t = true →
      ∃ tk, (updateTicket s (some i) body now bF eF).1 = HOut.ok tk) := by
  have hf : truthyS body = false := by
    rcases hb with h | h <;> simp [h, truthyS]
  have hsd : statusUpdatedDoc t body now = { t with updated_at := some now } := by
    simp [statusUpdatedDoc, hf]
  simp only [updateTicket, hf, Bool.false_and, Bool.false_eq_true, if_false,
             ht, hsd]
  cases hto : ticketOfDoc (toString i) { t with updated_at := some now } with
  | some tk => simp [hto]
  | none =>
    refine ⟨by simp [hto], by simp [hto], ?_⟩
    intro hdoc
    have h2 : docOk { t with updated_at := some now } = true := by
      have htr := docOk_statusUpdated t body now hdoc
        (fun hb' => by rw [hf] at hb'; cases hb')
      rwa [hsd] at htr
    have h3 := (ticketOfDoc_spec (toString i) { t with updated_at := some now }).1
    rw [hto, h2] at h3
    cases h3

/-- Witness for C10: updating `demoDoc` with a body that has no status. -/
theorem C10_witness :
    ((none : Option String) = none ∨ (none : Option String) = some "") ∧
    Store.find ⟨[(0, demoDoc)], 1⟩ 0 = some demoDoc ∧
    (updateTicket ⟨[(0, demoDoc)], 1⟩ (some 0) none 9 false false).2.1 =
      Store.setDoc ⟨[(0, demoDoc)], 1⟩ 0 { demoDoc with updated_at := some 9 } ∧
    (updateTicket ⟨[(0, demoDoc)], 1⟩ (some 0) none 9 false false).2.2 =
      [Effect.commit 0, Effect.broadcast "ticket_updated" true] := by
  have h := C10_empty_status_update ⟨[(0, demoDoc)], 1⟩ 0 demoDoc none 9
    false false (Or.inl rfl) (by decide)
  exact ⟨Or.inl rfl, by decide, h.1, h.2.1⟩

/-- C1 fails on `add_admin_response`: the claim (and the spec) put the
broadcast before the email (or concurrent with it), but the handler awaits
the reporter email to completion first (lines 526-542 of main.py) and only
then attempts the `new_response` broadcast (lines 544-548).  Concretely,
for a stored ticket with a reporter email on file, the executed
side-effect trace is commit, then email, then broadcast, violating the
claimed order. -/
theorem C1_counterexample :
    (addAdminResponse ⟨[(0, demoDoc)], 1⟩ (some 0) (some "Ann") (some "done")
        none "r1" 1 2 3 false false).2.2 =
      [Effect.commit 0, Effect.email "ana@x.com" true,
       Effect.broadcast "new_response" true] ∧
    ¬ claimOrderC1 ((addAdminResponse ⟨[(0, demoDoc)], 1⟩ (some 0) (some "Ann")
        (some "done") none "r1" 1 2 3 false false).2.2) := by
  constructor
  · decide
  · decide

/-- C1 (amended): for both Update-status and Add-response the store
mutation commits first and neither a broadcast failure nor an email
failure alters the committed mutation or the response: the result, the new
store and the attempted side effects are the same for every combination of
failure flags, which also means a failed first side effect never prevents
the second.  The attempt order differs between the two operations:
`update_ticket` broadcasts first and emails last, while
`add_admin_response` emails first and broadcasts last. -/
theorem C1_commit_first_failures_isolated :
    (∀ s i t body now bF eF, s.find i = some t →
      ¬(truthyS body = true ∧ validStatus (body.getD "") = false) →
      ((updateTicket s (some i) body now bF eF).2.1 =
          s.setDoc i (statusUpdatedDoc t body now) ∧
       (updateTicket s (some i) body now bF eF).2.2 =
          [Effect.commit i, Effect.broadcast "ticket_updated" (!bF)] ++
          (if truthyS body && truthyS t.reporter_email then
            [Effect.email (t.reporter_email.getD "") (!eF)]
           else []) ∧
       (docOk t = true →
        ∃ tk, (updateTicket s (some i) body now bF eF).1 = HOut.ok tk))) ∧
    (∀ s i t an rt img u n1 n2 n3 bF eF, s.find i = some t →
      pyStrip (an.getD "") ≠ "" → pyStrip (rt.getD "") ≠ "" →
      addAdminResponse s (some i) an rt img u n1 n2 n3 bF eF =
        (HOut.ok (respondedDoc t ⟨u, pyStrip (an.getD ""), pyStrip (rt.getD ""),
            img, n1, false⟩ n2 n3),
         s.setDoc i (respondedDoc t ⟨u, pyStrip (an.getD ""), pyStrip (rt.getD ""),
            img, n1, false⟩ n2 n3),
         [Effect.commit i] ++
         (if truthyS t.reporter_email then
           [Effect.email (t.reporter_email.getD "") (!eF)]
          else []) ++
         [Effect.broadcast "new_response" (!bF)])) := by
  constructor
  · intro s i t body now bF eF ht hval
    have hc : (truthyS body && !validStatus (body.getD "")) = false := by
      cases hb : truthyS body
      · simp
      · cases hv : validStatus (body.getD "")
        · exact absurd ⟨hb, hv⟩ hval
        · simp [hv]
    simp only [updateTicket, hc, Bool.false_eq_true, if_false, ht]
    cases hto : ticketOfDoc (toString i) (statusUpdatedDoc t body now) with
    | some tk => simp [hto]
    | none =>
      refine ⟨by simp [hto], by simp [hto], ?_⟩
      intro hdoc
      have hvimp : truthyS body = true → validStatus (body.getD "") = true := by
        intro hb
        cases hv : validStatus (body.getD "")
        · rw [hb, hv] at hc; cases hc
        · rfl
      have h2 := docOk_statusUpdated t body now hdoc hvimp
      have h3 := (ticketOfDoc_spec (toString i) (statusUpdatedDoc t body now)).1
      rw [hto, h2] at h3
      cases h3
  · intro s i t an rt img u n1 n2 n3 bF eF ht han hrt
    have h1 : (pyStrip (an.getD "") == "") = false := by
      simpa using han
    have h2 : (pyStrip (rt.getD "") == "") = false := by
      simpa using hrt
    simp [addAdminResponse, h1, h2, ht]

/-- Witness for C1 (amended), instantiating both operations on `demoDoc`. -/
theorem C1_witness :
    (Store.find ⟨[(0, demoDoc)], 1⟩ 0 = some demoDoc ∧
     ¬(truthyS (some "resolved") = true ∧
        validStatus ((some "resolved" : Option String).getD "") = false) ∧
     (updateTicket ⟨[(0, demoDoc)], 1⟩ (some 0) (some "resolved") 9 true false).2.2 =
       [Effect.commit 0, Effect.broadcast "ticket_updated" false,
        Effect.email "ana@x.com" true]) ∧
    ((an : String) = "Ann" → True) ∧
    addAdminResponse ⟨[(0, demoDoc)], 1⟩ (some 0) (some "Ann") (some "done")
        none "r1" 1 2 3 true false =
      (HOut.ok (respondedDoc demoDoc ⟨"r1", "Ann", "done", none, 1, false⟩ 2 3),
       Store.setDoc ⟨[(0, demoDoc)], 1⟩ 0
         (respondedDoc demoDoc ⟨"r1", "Ann", "done", none, 1, false⟩ 2 3),
       [Effect.commit 0, Effect.email "ana@x.com" true,
        Effect.broadcast "new_response" false]) := by
  refine ⟨⟨by decide, by decide, ?_⟩, fun _ => trivial, ?_⟩
  · have h := (C1_commit_first_failures_isolated.1) ⟨[(0, demoDoc)], 1⟩ 0 demoDoc
      (some "resolved") 9 true false (by decide) (by decide)
    rw [h.2.1]
    decide
  · have h := (C1_commit_first_failures_isolated.2) ⟨[(0, demoDoc)], 1⟩ 0 demoDoc
      (some "Ann") (some "done") none "r1" 1 2 3 true false (by decide)
      (by decide) (by decide)
    rw [h]
    decide

theorem setFirstRead_find? (l : List RespDoc) (rid : String) (r : RespDoc)
    (h : l.find? (fun x => x.response_id == rid) = some r) :
    (setFirstRead l rid).find? (fun x => x.response_id == rid) =
      some { r with is_read := true } := by
  induction l with
  | nil => simp at h
  | cons a rest ih =>
    by_cases ha : (a.response_id == rid) = true
    · simp only [List.find?_cons, ha] at h
      cases h
      simp [setFirstRead, List.find?_cons, ha]
    · have ha' : (a.response_id == rid) = false := by
        simpa using ha
      simp only [List.find?_cons, ha'] at h
      simp only [setFirstRead, ha', Bool.false_eq_true, if_false]
      simp only [List.find?_cons, ha']
      exact ih h

theorem setFirstRead_any (l : List RespDoc) (rid : String) :
    (setFirstRead l rid).any (fun x => x.response_id == rid) =
      l.any (fun x => x.response_id == rid) := by
  induction l with
  | nil => simp [setFirstRead]
  | cons a rest ih =>
    by_cases ha : (a.response_id == rid) = true
    · simp [setFirstRead, ha]
    · have ha' : (a.response_id == rid) = false := by simpa using ha
      simp [setFirstRead, ha', ih]

theorem setFirstRead_idem (l : List RespDoc) (rid : String) :
    setFirstRead (setFirstRead l rid) rid = setFirstRead l rid := by
  induction l with
  | nil => simp [setFirstRead]
  | cons a rest ih =>
    by_cases ha : (a.response_id == rid) = true
    · simp [setFirstRead, ha]
    · have ha' : (a.response_id == rid) = false := by simpa using ha
      simp only [setFirstRead, ha', Bool.false_eq_true, if_false]
      simp only [setFirstRead, ha', Bool.false_eq_true, if_false, ih]

theorem readDoc_idem (t : TicketDoc) (rid : String) :
    readDoc (readDoc t rid) rid = readDoc t rid := by
  simp [readDoc, setFirstRead_idem]

/-- C8: marking a response read is idempotent, and a pair of a (valid)
ticket id and response id that does not identify an existing embedded
response always yields 404.  For an existing ticket `t` holding a response
with the given id, both the first and the second call succeed, both leave
the store at the document whose first matching response has
`is_read = true`, and that flag stays `true` after each call; for a pair
matching no ticket or no response, the handler returns 404 and the store
is unchanged  (`mark_response_as_read` does have the
`except HTTPException: raise` clause, so the 404 survives). -/
theorem C8_mark_read_idempotent :
    (∀ s i t rid, s.find i = some t →
      t.admin_responses.any (fun x => x.response_id == rid) = true →
      (markResponseRead s (some i) rid =
        (HOut.ok (readDoc t rid), s.setDoc i (readDoc t rid),
         [Effect.commit i]) ∧
       (∀ r, t.admin_responses.find? (fun x => x.response_id == rid) = some r →
         (readDoc t rid).admin_responses.find? (fun x => x.response_id == rid) =
           some { r with is_read := true }) ∧
       markResponseRead (s.setDoc i (readDoc t rid)) (some i) rid =
        (HOut.ok (readDoc t rid),
         (s.setDoc i (readDoc t rid)).setDoc i (readDoc t rid),
         [Effect.commit i]))) ∧
    (∀ s i rid,
      (∀ t, s.find i = some t →
        t.admin_responses.any (fun x => x.response_id == rid) = false) →
      markResponseRead s (some i) rid =
        (HOut.err ⟨404, "Ticket or response not found"⟩, s, [])) := by
  constructor
  · intro s i t rid ht hany
    refine ⟨?_, ?_, ?_⟩
    · simp [markResponseRead, ht, hany]
    · intro r hr
      simpa [readDoc] using setFirstRead_find? t.admin_responses rid r hr
    · have ht2 : (s.setDoc i (readDoc t rid)).find i = some (readDoc t rid) :=
        Store.find_setDoc_self s i (readDoc t rid) t ht
      have hany2 : (readDoc t rid).admin_responses.any
          (fun x => x.response_id == rid) = true := by
        simpa [readDoc, setFirstRead_any] using hany
      simp [markResponseRead, ht2, hany2, readDoc_idem]
  · intro s i rid hno
    cases ht : s.find i with
    | none => simp [markResponseRead, ht]
    | some t => simp [markResponseRead, ht, hno t ht]

/-- Witness for C8: `demoDocResp` holds the unread response `r6`; marking
it read twice succeeds both times and pins `is_read` to `true`. -/
theorem C8_witness :
    Store.find ⟨[(0, demoDocResp)], 1⟩ 0 = some demoDocResp ∧
    demoDocResp.admin_responses.any (fun x => x.response_id == "r6") = true ∧
    markResponseRead ⟨[(0, demoDocResp)], 1⟩ (some 0) "r6" =
      (HOut.ok (readDoc demoDocResp "r6"),
       Store.setDoc ⟨[(0, demoDocResp)], 1⟩ 0 (readDoc demoDocResp "r6"),
       [Effect.commit 0]) ∧
    (readDoc demoDocResp "r6").admin_responses.find?
        (fun x => x.response_id == "r6") =
      some ⟨"r6", "Bob", "On it", none, 3, true⟩ := by
  have h := C8_mark_read_idempotent.1 ⟨[(0, demoDocResp)], 1⟩ 0 demoDocResp "r6"
    (by decide) (by decide)
  refine ⟨by decide, by decide, h.1, ?_⟩
  have h2 := h.2.1 ⟨"r6", "Bob", "On it", none, 3, false⟩ (by decide)
  exact h2

/-- C7 fails: `mark_ticket_viewed` performs no broadcast at all — its only
effect is the store commit (and the claim's own sources show the handler
body contains no call into the websocket manager).  Concretely, viewing
the stored demo ticket produces the trace `[commit]` and still succeeds. -/
theorem C7_counterexample :
    (markTicketViewed ⟨[(0, demoDoc)], 1⟩ (some 0) 9).2.2 =
      [Effect.commit 0] ∧
    isOk (markTicketViewed ⟨[(0, demoDoc)], 1⟩ (some 0) 9).1 = true := by
  constructor
  · decide
  · decide

/-- C7 (amended): marking a ticket viewed emits nothing — no broadcast
attempt appears in its trace; the `ticket_updated` event is emitted by the
status-update operation only, and when `broadcast_ticket_update` runs, a
connection receives `ticket_updated` exactly when it is an administrator
connection or is tracked under the ticket's (non-empty) reporter email. -/
theorem C7_view_no_broadcast :
    (∀ s tid now e, e ∈ (markTicketViewed s tid now).2.2 →
      isBroadcastE e = false) ∧
    (∀ admins users tidS d k sid,
      (∃ e ∈ broadcastTicketUpdate admins users tidS d k,
        e.event = "ticket_updated" ∧ sid ∈ e.recipients) ↔
      (sid ∈ admins ∨
       ∃ em, (sid, em) ∈ users ∧ d.reporter_email = some em ∧ em ≠ "")) ∧
    (∀ s i t body now bF eF, s.find i = some t →
      ¬(truthyS body = true ∧ validStatus (body.getD "") = false) →
      Effect.broadcast "ticket_updated" (!bF) ∈
        (updateTicket s (some i) body now bF eF).2.2) := by
  refine ⟨?_, ?_, ?_⟩
  · intro s tid now e he
    cases tid with
    | none => simp [markTicketViewed] at he
    | some i =>
      cases ht : s.find i with
      | none => simp [markTicketViewed, ht] at he
      | some t =>
        cases hto : ticketOfDoc (toString i) (viewedDoc t now) with
        | some tk =>
          simp [markTicketViewed, ht, hto] at he
          simp [he, isBroadcastE]
        | none =>
          simp [markTicketViewed, ht, hto] at he
          simp [he, isBroadcastE]
  · intro admins users tidS d k sid
    constructor
    · rintro ⟨e, he, hev, hsid⟩
      simp only [broadcastTicketUpdate, List.mem_append] at he
      rcases he with he | he
      · by_cases ha : admins.isEmpty
        · simp [ha] at he
        · simp [ha] at he
          subst he
          exact Or.inl (by simpa using hsid)
      · by_cases hr : truthyS d.reporter_email = true
        · rw [if_pos hr] at he
          simp only [List.mem_singleton] at he
          subst he
          obtain ⟨em0, hre, hne0⟩ := (truthyS_iff d.reporter_email).mp hr
          simp only [List.mem_map, List.mem_filter] at hsid
          obtain ⟨p, ⟨hpu, hpe⟩, hp1⟩ := hsid
          refine Or.inr ⟨p.snd, ?_, ?_, ?_⟩
          · have hp : p = (sid, p.snd) := by
              cases p
              simp only at hp1
              simp [hp1]
            rw [← hp]
            exact hpu
          · have hpe' : some p.snd = d.reporter_email := by simpa using hpe
            exact hpe'.symm
          · rw [hre] at hpe
            have hp2 : p.snd = em0 := by simpa using hpe
            rw [hp2]
            exact hne0
        · rw [if_neg hr] at he
          simp at he
    · rintro (hsa | ⟨em, hmem, hre, hne⟩)
      · have ha : admins.isEmpty = false := by
          cases hae : admins.isEmpty
          · rfl
          · rw [List.isEmpty_iff] at hae
            subst hae
            simp at hsa
        refine ⟨⟨"ticket_updated", "/admin", admins⟩, ?_, rfl, hsa⟩
        simp [broadcastTicketUpdate, ha]
      · have hr : truthyS d.reporter_email = true :=
          (truthyS_iff d.reporter_email).mpr ⟨em, hre, hne⟩
        refine ⟨⟨"ticket_updated", "/user",
          (users.filter (fun p => some p.snd == d.reporter_email)).map
            Prod.fst⟩, ?_, rfl, ?_⟩
        · simp [broadcastTicketUpdate, hr]
        · simp only [List.mem_map, List.mem_filter]
          exact ⟨(sid, em), ⟨hmem, by simp [hre]⟩, rfl⟩
  · intro s i t body now bF eF ht hval
    have hc : (truthyS body && !validStatus (body.getD "")) = false := by
      cases hb : truthyS body
      · simp
      · cases hv : validStatus (body.getD "")
        · exact absurd ⟨hb, hv⟩ hval
        · simp [hv]
    simp only [updateTicket, hc, Bool.false_eq_true, if_false, ht]
    cases hto : ticketOfDoc (toString i) (statusUpdatedDoc t body now) with
    | some tk => simp [hto]
    | none => simp [hto]

/-- Witness for C7 (amended): the three parts instantiated on concrete
connection registries and the demo store. -/
theorem C7_witness :
    ((∃ e ∈ broadcastTicketUpdate ["a1"] [("u1", "ana@x.com")] "0" demoDoc
        "status_update", e.event = "ticket_updated" ∧ "u1" ∈ e.recipients)) ∧
    Store.find ⟨[(0, demoDoc)], 1⟩ 0 = some demoDoc ∧
    Effect.broadcast "ticket_updated" true ∈
      (updateTicket ⟨[(0, demoDoc)], 1⟩ (some 0) (some "resolved") 9 false
        false).2.2 := by
  refine ⟨?_, by decide, ?_⟩
  · exact (C7_view_no_broadcast.2.1 ["a1"] [("u1", "ana@x.com")] "0" demoDoc
      "status_update" "u1").mpr
      (Or.inr ⟨"ana@x.com", by decide, by decide, by decide⟩)
  · have h := C7_view_no_broadcast.2.2 ⟨[(0, demoDoc)], 1⟩ 0 demoDoc
      (some "resolved") 9 false false (by decide) (by decide)
    simpa using h

/-- C5 fails on the timestamp clause: `create_ticket` takes two separate
`datetime.utcnow()` readings for `created_at` and `updated_at` (lines
174-175 of main.py), so the two need not be equal.  With clock readings 0
and 1 the creation succeeds and produces a ticket whose `created_at`
differs from its `updated_at`. -/
theorem C5_counterexample :
    ((resultOk? (createTicket ⟨[], 0⟩ demoCreate "t5" 0 1 false).1).map
      (fun t => decide (t.created_at = t.updated_at))) = some false := by
  decide

/-- C5 (amended): for every valid creation input, a successful create
yields a ticket whose id is the store-assigned fresh id (distinct from all
existing ids), whose access token is the generated uuid (distinct from all
stored tokens, enforced by the unique index), whose status is `open`
whenever the input's status parsed to the default (i.e. the body left it
unspecified), and whose `created_at` and `updated_at` are the two
successive clock readings, so `created_at ≤ updated_at` under a monotone
clock — equality is not guaranteed. -/
theorem C5_create (s : Store) (tc : TicketCreate) (tok : String) (n1 n2 : Time)
    (bF : Bool) (tk : Ticket) (hwf : Store.wf s) (hv : ValidCreate tc)
    (hmono : n1 ≤ n2)
    (hok : (createTicket s tc tok n1 n2 bF).1 = HOut.ok tk) :
    tk.id = toString s.nextId ∧ ¬ s.nextId ∈ s.ids ∧
    tk.access_token = tok ∧ ¬ tok ∈ s.tokens ∧
    (tc.status = "open" → tk.status = "open") ∧
    parsedStatus none = some "open" ∧
    tk.created_at = n1 ∧ tk.updated_at = n2 ∧ tk.created_at ≤ tk.updated_at := by
  simp only [createTicket] at hok
  cases hct : s.tokens.contains tok with
  | true => rw [hct] at hok; simp at hok
  | false =>
    rw [hct] at hok
    simp only [Bool.false_eq_true, if_false] at hok
    cases hto : ticketOfDoc (toString s.nextId) (createdDoc tc tok n1 n2) with
    | none => rw [hto] at hok; simp at hok
    | some tk0 =>
      rw [hto] at hok
      simp only at hok
      have htk : tk0 = tk := by simpa using hok
      subst htk
      obtain ⟨hid, -, -, -, -, -, -, -, -, hst, htok2, hcr, hup⟩ :=
        (ticketOfDoc_spec (toString s.nextId) (createdDoc tc tok n1 n2)).2 tk0 hto
      have h3 : tk0.access_token = tok := by
        have hx : some tok = some tk0.access_token := by
          simpa [createdDoc] using htok2
        exact (Option.some.inj hx).symm
      have h1 : tk0.created_at = n1 := by
        have hx : some n1 = some tk0.created_at := by
          simpa [createdDoc] using hcr
        exact (Option.some.inj hx).symm
      have h2 : tk0.updated_at = n2 := by
        have hx : some n2 = some tk0.updated_at := by
          simpa [createdDoc] using hup
        exact (Option.some.inj hx).symm
      refine ⟨hid, ?_, h3, tokens_contains_mem s tok hct, ?_, rfl, h1, h2, ?_⟩
      · intro hmem
        exact absurd (hwf _ hmem) (lt_irrefl _)
      · intro hopen
        rw [hst]
        simp [createdDoc, hopen]
      · rw [h1, h2]
        exact hmono

/-- Witness for C5 on the empty store with clock readings 0 and 1. -/
theorem C5_witness :
    Store.wf (⟨[], 0⟩ : Store) ∧ ValidCreate demoCreate ∧ ((0 : Time) ≤ 1) ∧
    (createTicket ⟨[], 0⟩ demoCreate "t5" 0 1 false).1 =
      HOut.ok ⟨"0", "Ana", "ana@x.com", "IT", "Broken chair", "Leg snapped",
               "furniture", "medium", "HQ", "open", none, "t5", [], none,
               none, false, 0, 1⟩ ∧
    ¬ (0 : ObjId) ∈ Store.ids ⟨[], 0⟩ ∧ ¬ "t5" ∈ Store.tokens ⟨[], 0⟩ := by
  have hwf : Store.wf (⟨[], 0⟩ : Store) := by
    intro i hi
    simp [Store.ids] at hi
  have hv : ValidCreate demoCreate := by decide
  have hok : (createTicket ⟨[], 0⟩ demoCreate "t5" 0 1 false).1 =
      HOut.ok ⟨"0", "Ana", "ana@x.com", "IT", "Broken chair", "Leg snapped",
               "furniture", "medium", "HQ", "open", none, "t5", [], none,
               none, false, 0, 1⟩ := by decide
  have h := C5_create ⟨[], 0⟩ demoCreate "t5" 0 1 false _ hwf hv
    (by decide) hok
  exact ⟨hwf, hv, by decide, hok, h.2.1, h.2.2.2.1⟩

theorem mem_insertDesc (p q : ObjId × TicketDoc)
    (l : List (ObjId × TicketDoc)) :
    q ∈ insertDesc p l ↔ q = p ∨ q ∈ l := by
  induction l with
  | nil => simp [insertDesc]
  | cons a rest ih =>
    simp only [insertDesc]
    split
    · simp [List.mem_cons]
    · simp only [List.mem_cons, ih]
      tauto

theorem mem_sortByCreatedDesc (q : ObjId × TicketDoc)
    (l : List (ObjId × TicketDoc)) :
    q ∈ sortByCreatedDesc l ↔ q ∈ l := by
  induction l with
  | nil => simp [sortByCreatedDesc]
  | cons a rest ih =>
    simp [sortByCreatedDesc, mem_insertDesc, ih]

theorem backfillAll_mem (g : Nat → String) (l : List (ObjId × TicketDoc))
    (k : Nat) (x : String × TicketDoc) (hx : x ∈ backfillAll g l k) :
    ∃ p ∈ l, ∃ m, x = (toString p.fst, backfillTok p.snd (g m)) := by
  induction l generalizing k with
  | nil => simp [backfillAll] at hx
  | cons a rest ih =>
    rcases a with ⟨i, d⟩
    cases hat : d.access_token with
    | some t0 =>
      simp only [backfillAll, hat] at hx
      rw [List.mem_cons] at hx
      rcases hx with hx | hx
      · exact ⟨(i, d), List.mem_cons_self _ _, k, hx⟩
      · obtain ⟨p, hp, m, he⟩ := ih k hx
        exact ⟨p, List.mem_cons_of_mem _ hp, m, he⟩
    | none =>
      simp only [backfillAll, hat] at hx
      rw [List.mem_cons] at hx
      rcases hx with hx | hx
      · exact ⟨(i, d), List.mem_cons_self _ _, k, hx⟩
      · obtain ⟨p, hp, m, he⟩ := ih (k + 1) hx
        exact ⟨p, List.mem_cons_of_mem _ hp, m, he⟩

theorem allParse_ok (l : List (String × TicketDoc))
    (h : ∀ x ∈ l, (ticketOfDoc x.fst x.snd).isSome = true) :
    ∃ ts, allParse l = some ts ∧
      ∀ tk ∈ ts, ∃ x ∈ l, ticketOfDoc x.fst x.snd = some tk := by
  induction l with
  | nil => exact ⟨[], rfl, by simp⟩
  | cons a rest ih =>
    rcases a with ⟨id, d⟩
    have ha := h (id, d) (List.mem_cons_self _ _)
    obtain ⟨t0, ht0⟩ := Option.isSome_iff_exists.mp ha
    obtain ⟨ts, hts, hmem⟩ := ih (fun x hx => h x (List.mem_cons_of_mem _ hx))
    refine ⟨t0 :: ts, ?_, ?_⟩
    · simp [allParse, ht0, hts]
    · intro tk htk
      rcases List.mem_cons.mp htk with h1 | h1
      · subst h1
        exact ⟨(id, d), List.mem_cons_self _ _, ht0⟩
      · obtain ⟨x, hx, he⟩ := hmem tk h1
        exact ⟨x, List.mem_cons_of_mem _ hx, he⟩

theorem optPred_getD (P : String → Bool) (o : Option String) (dflt : String)
    (h : optPred P o = true) (hd : P dflt = true) : P (o.getD dflt) = true := by
  cases o with
  | none => simpa using hd
  | some x => simpa [optPred] using h

theorem optPred_getD_isSome (P : String → Bool) (o : Option String)
    (dflt : String) (h : optPred P o = true) (hs : o.isSome = true) :
    P (o.getD dflt) = true := by
  cases o with
  | none => simp at hs
  | some x => simpa [optPred] using h

theorem docOk_backfill (d : TicketDoc) (tok : String) (h : CoreOk d = true) :
    docOk (backfillTok d tok) = true := by
  simp only [CoreOk, Bool.and_eq_true] at h
  obtain ⟨h1, h2, h3, h4, h5, h6, h7, h8, h9, h10, h11, h12, h13, h14⟩ := h
  have b1 : strLen1 (d.reporter_name.getD "Unknown") 100 = true :=
    optPred_getD _ _ _ h1 (by decide)
  have b2 : strLen1 (d.reporter_department.getD "N/A") 100 = true :=
    optPred_getD _ _ _ h2 (by decide)
  have b3 : strLen1 (d.title.getD "") 200 = true :=
    optPred_getD_isSome _ _ _ h4 h3
  have b4 : strLen1 (d.description.getD "") 2000 = true :=
    optPred_getD_isSome _ _ _ h6 h5
  have b5 : validCategory (d.category.getD "other") = true :=
    optPred_getD _ _ _ h7 (by decide)
  have b6 : validPriority (d.priority.getD "medium") = true :=
    optPred_getD _ _ _ h8 (by decide)
  have b7 : strLen1 (d.location.getD "N/A") 200 = true :=
    optPred_getD _ _ _ h9 (by decide)
  have b8 : validStatus (d.status.getD "open") = true :=
    optPred_getD _ _ _ h10 (by decide)
  simp [docOk, backfillTok, backfill0, b1, b2, b3, b4, b5, b6, b7, b8, h3,
        h5, h11, h12, h13, h14]

/-- C3 fails for the point lookups: only `get_tickets` applies the
backward-compatibility backfill; `get_ticket` (and `get_ticket_by_token`)
feed the raw document straight into `Ticket(**ticket)`.  On a legacy
document missing `access_token` the listing succeeds with backfilled
defaults while the same document fetched by id raises a pydantic
`ValidationError`, surfaced as a 500. -/
theorem C3_counterexample :
    legacyDoc.access_token = none ∧
    (getTicket ⟨[(0, legacyDoc)], 1⟩ (some 0)).1 =
      HOut.err ⟨500, "Error retrieving ticket"⟩ ∧
    isOk (getTickets ⟨[(0, legacyDoc)], 1⟩ demoGen).1 = true := by
  refine ⟨rfl, ?_, ?_⟩
  · decide
  · decide

/-- C3 (amended): the list operation backfills defaults (reporter name
"Unknown", reporter email "unknown@example.com", department "N/A",
category `other`, priority `medium`, location "N/A", and a freshly
generated access token when the field is absent) and succeeds on every
repairable legacy document; the point lookups by id and by token apply no
backfill and fail with 500 on a legacy document missing a required model
field — `access_token` for the id lookup, and for the token lookup (whose
document necessarily has a token) a field such as `reporter_name`. -/
theorem C3_only_list_backfills :
    (∀ s g, (∀ p ∈ s.tickets, CoreOk p.snd = true) →
      ∃ ts, (getTickets s g).1 = HOut.ok ts ∧
        ∀ tk ∈ ts, ∃ p ∈ s.tickets, ∃ m,
          ticketOfDoc (toString p.fst) (backfillTok p.snd (g m)) = some tk ∧
          tk.reporter_name = p.snd.reporter_name.getD "Unknown" ∧
          tk.reporter_email = p.snd.reporter_email.getD "unknown@example.com" ∧
          tk.reporter_department = p.snd.reporter_department.getD "N/A" ∧
          tk.category = p.snd.category.getD "other" ∧
          tk.priority = p.snd.priority.getD "medium" ∧
          tk.location = p.snd.location.getD "N/A" ∧
          tk.access_token = p.snd.access_token.getD (g m)) ∧
    (∀ s i d, s.find i = some d → d.access_token = none →
      (getTicket s (some i)).1 = HOut.err ⟨500, "Error retrieving ticket"⟩) ∧
    (∀ s tok i d, s.findByToken tok = some (i, d) → d.reporter_name = none →
      (getTicketByToken s tok).1 =
        HOut.err ⟨500, "Error retrieving ticket"⟩) := by
  refine ⟨?_, ?_, ?_⟩
  · intro s g hall
    have hparse : ∀ x ∈ backfillAll g (sortByCreatedDesc s.tickets) 0,
        (ticketOfDoc x.fst x.snd).isSome = true := by
      intro x hx
      obtain ⟨p, hp, m, he⟩ := backfillAll_mem g _ 0 x hx
      have hc : CoreOk p.snd = true :=
        hall p ((mem_sortByCreatedDesc p _).mp hp)
      rw [he]
      rw [(ticketOfDoc_spec _ _).1]
      exact docOk_backfill p.snd (g m) hc
    obtain ⟨ts, hts, hmem⟩ := allParse_ok _ hparse
    refine ⟨ts, by simp [getTickets, hts], ?_⟩
    intro tk htk
    obtain ⟨x, hx, he⟩ := hmem tk htk
    obtain ⟨p, hp, m, hxe⟩ := backfillAll_mem g _ 0 x hx
    rw [hxe] at he
    obtain ⟨-, f1, f2, f3, -, -, f4, f5, f6, -, f7, -, -⟩ :=
      (ticketOfDoc_spec (toString p.fst) (backfillTok p.snd (g m))).2 tk he
    refine ⟨p, (mem_sortByCreatedDesc p _).mp hp, m, he, ?_, ?_, ?_, ?_, ?_,
            ?_, ?_⟩
    · have hx1 : some (p.snd.reporter_name.getD "Unknown") =
          some tk.reporter_name := by
        simpa [backfillTok, backfill0] using f1
      exact (Option.some.inj hx1).symm
    · have hx1 : some (p.snd.reporter_email.getD "unknown@example.com") =
          some tk.reporter_email := by
        simpa [backfillTok, backfill0] using f2
      exact (Option.some.inj hx1).symm
    · have hx1 : some (p.snd.reporter_department.getD "N/A") =
          some tk.reporter_department := by
        simpa [backfillTok, backfill0] using f3
      exact (Option.some.inj hx1).symm
    · have hx1 : some (p.snd.category.getD "other") = some tk.category := by
        simpa [backfillTok, backfill0] using f4
      exact (Option.some.inj hx1).symm
    · have hx1 : tk.priority =
          (backfillTok p.snd (g m)).priority.getD "medium" := f5
      simpa [backfillTok, backfill0] using hx1
    · have hx1 : some (p.snd.location.getD "N/A") = some tk.location := by
        simpa [backfillTok, backfill0] using f6
      exact (Option.some.inj hx1).symm
    · have hx1 : some (p.snd.access_token.getD (g m)) =
          some tk.access_token := by
        simpa [backfillTok, backfill0] using f7
      exact (Option.some.inj hx1).symm
  · intro s i d hd htok
    have hdo : docOk d = false := by simp [docOk, htok]
    have hiso := (ticketOfDoc_spec (toString i) d).1
    rw [hdo] at hiso
    have hnone : ticketOfDoc (toString i) d = none := by
      cases hto : ticketOfDoc (toString i) d with
      | none => rfl
      | some t => rw [hto] at hiso; simp at hiso
    simp [getTicket, hd, hnone]
  · intro s tok i d hd hname
    have hdo : docOk d = false := by simp [docOk, hname]
    have hiso := (ticketOfDoc_spec (toString i) d).1
    rw [hdo] at hiso
    have hnone : ticketOfDoc (toString i) d = none := by
      cases hto : ticketOfDoc (toString i) d with
      | none => rfl
      | some t => rw [hto] at hiso; simp at hiso
    simp [getTicketByToken, hd, hnone]

/-- Witness for C3 on the single-legacy-document stores (one lacking the
token entirely, one carrying a token but no reporter name). -/
theorem C3_witness :
    CoreOk legacyDoc = true ∧
    isOk (getTickets ⟨[(0, legacyDoc)], 1⟩ demoGen).1 = true ∧
    Store.find ⟨[(0, legacyDoc)], 1⟩ 0 = some legacyDoc ∧
    legacyDoc.access_token = none ∧
    (getTicket ⟨[(0, legacyDoc)], 1⟩ (some 0)).1 =
      HOut.err ⟨500, "Error retrieving ticket"⟩ ∧
    Store.findByToken ⟨[(0, legacyDocTok)], 1⟩ "tok-legacy" =
      some (0, legacyDocTok) ∧
    legacyDocTok.reporter_name = none ∧
    (getTicketByToken ⟨[(0, legacyDocTok)], 1⟩ "tok-legacy").1 =
      HOut.err ⟨500, "Error retrieving ticket"⟩ := by
  refine ⟨by decide, ?_, by decide, rfl, ?_, by decide, rfl, ?_⟩
  · obtain ⟨ts, hts, -⟩ :=
      C3_only_list_backfills.1 ⟨[(0, legacyDoc)], 1⟩ demoGen (by decide)
    simp [hts, isOk]
  · exact C3_only_list_backfills.2.1 ⟨[(0, legacyDoc)], 1⟩ 0 legacyDoc
      (by decide) rfl
  · exact C3_only_list_backfills.2.2 ⟨[(0, legacyDocTok)], 1⟩ "tok-legacy" 0
      legacyDocTok (by decide) rfl

theorem updGeCre_of_eq (t x : TicketDoc) (hc : x.created_at = t.created_at)
    (hu : x.updated_at = t.updated_at) (h : UpdGeCre t) : UpdGeCre x := by
  intro c u hcc huu
  exact h c u (by rw [← hc]; exact hcc) (by rw [← hu]; exact huu)

theorem updGeCre_of_now (t x : TicketDoc) (now : Time)
    (hc : x.created_at = t.created_at) (hu : x.updated_at = some now)
    (hn : ∀ c, t.created_at = some c → c ≤ now) : UpdGeCre x := by
  intro c u hcc huu
  rw [hu] at huu
  have hun : now = u := Option.some.inj huu
  rw [← hun]
  exact hn c (by rw [← hc]; exact hcc)

/-- C6 fails: `mark_response_as_read` commits `{"$set":
{"admin_responses.$.is_read": true}}` and nothing else — it never touches
the ticket-level `updated_at` (and consumes no clock reading at all).
Concretely, marking the demo response read succeeds and leaves the stored
ticket's `updated_at` at its old value 5. -/
theorem C6_counterexample :
    isOk (markResponseRead ⟨[(0, demoDocResp)], 1⟩ (some 0) "r6").1 = true ∧
    ((markResponseRead ⟨[(0, demoDocResp)], 1⟩ (some 0) "r6").2.1.find 0).map
        TicketDoc.updated_at = some (some 5) ∧
    demoDocResp.updated_at = some 5 := by
  refine ⟨by decide, by decide, rfl⟩

/-- C6 (amended): only the update-status, mark-viewed and add-response
operations refresh the ticket-level `updated_at` (setting it to the
current clock reading); mark-response-read, rate, comment, like, dislike
and delete-comment leave the ticket-level `updated_at` (and `created_at`)
unchanged — the feedback operations refresh at most the nested
`user_feedback.updated_at`.  Consequently the invariant
`updated_at ≥ created_at` is preserved by every operation: the refreshing
operations re-establish it from a clock reading at or after `created_at`,
and the others cannot disturb it. -/
theorem C6_updated_at_refresh :
    (∀ s i t body now bF eF, s.find i = some t →
      ¬(truthyS body = true ∧ validStatus (body.getD "") = false) →
      ((updateTicket s (some i) body now bF eF).2.1.find i =
          some (statusUpdatedDoc t body now) ∧
       (statusUpdatedDoc t body now).updated_at = some now ∧
       (statusUpdatedDoc t body now).created_at = t.created_at ∧
       ((∀ c, t.created_at = some c → c ≤ now) →
         UpdGeCre (statusUpdatedDoc t body now)))) ∧
    (∀ s i t now, s.find i = some t →
      ((markTicketViewed s (some i) now).2.1.find i =
          some (viewedDoc t now) ∧
       (viewedDoc t now).updated_at = some now ∧
       (viewedDoc t now).created_at = t.created_at ∧
       ((∀ c, t.created_at = some c → c ≤ now) →
         UpdGeCre (viewedDoc t now)))) ∧
    (∀ s i t an rt img u n1 n2 n3 bF eF, s.find i = some t →
      pyStrip (an.getD "") ≠ "" → pyStrip (rt.getD "") ≠ "" →
      ((addAdminResponse s (some i) an rt img u n1 n2 n3 bF eF).2.1.find i =
          some (respondedDoc t ⟨u, pyStrip (an.getD ""), pyStrip (rt.getD ""),
            img, n1, false⟩ n2 n3) ∧
       (respondedDoc t ⟨u, pyStrip (an.getD ""), pyStrip (rt.getD ""), img,
          n1, false⟩ n2 n3).updated_at = some n2 ∧
       (respondedDoc t ⟨u, pyStrip (an.getD ""), pyStrip (rt.getD ""), img,
          n1, false⟩ n2 n3).created_at = t.created_at ∧
       ((∀ c, t.created_at = some c → c ≤ n2) →
         UpdGeCre (respondedDoc t ⟨u, pyStrip (an.getD ""),
           pyStrip (rt.getD ""), img, n1, false⟩ n2 n3)))) ∧
    (∀ s i t rid, s.find i = some t →
      t.admin_responses.any (fun x => x.response_id == rid) = true →
      ((markResponseRead s (some i) rid).2.1.find i = some (readDoc t rid) ∧
       (readDoc t rid).updated_at = t.updated_at ∧
       (readDoc t rid).created_at = t.created_at ∧
       (UpdGeCre t → UpdGeCre (readDoc t rid)))) ∧
    (∀ s i t rating n1 n2, s.find i = some t →
      1 ≤ rating → rating ≤ 5 →
      ((rateTicket s (some i) rating n1 n2).2.1.find i =
          some (ratedDoc t rating n1 n2) ∧
       (ratedDoc t rating n1 n2).updated_at = t.updated_at ∧
       (ratedDoc t rating n1 n2).created_at = t.created_at ∧
       (UpdGeCre t → UpdGeCre (ratedDoc t rating n1 n2)))) ∧
    (∀ s i t un ct cu n1 n2 n3 n4, s.find i = some t →
      pyStrip un ≠ "" → pyStrip ct ≠ "" →
      ((addComment s (some i) un ct cu n1 n2 n3 n4).2.1.find i =
          some (commentedDoc t ⟨cu, pyStrip un, pyStrip ct, n3⟩ n1 n2 n4) ∧
       (commentedDoc t ⟨cu, pyStrip un, pyStrip ct, n3⟩ n1 n2 n4).updated_at =
          t.updated_at ∧
       (commentedDoc t ⟨cu, pyStrip un, pyStrip ct, n3⟩ n1 n2 n4).created_at =
          t.created_at ∧
       (UpdGeCre t →
         UpdGeCre (commentedDoc t ⟨cu, pyStrip un, pyStrip ct, n3⟩ n1 n2 n4)))) ∧
    (∀ s i t now, s.find i = some t →
      ((likeTicket s (some i) now).2.1.find i = some (likedDoc t now) ∧
       (likedDoc t now).updated_at = t.updated_at ∧
       (likedDoc t now).created_at = t.created_at ∧
       (UpdGeCre t → UpdGeCre (likedDoc t now)))) ∧
    (∀ s i t now, s.find i = some t →
      ((dislikeTicket s (some i) now).2.1.find i = some (dislikedDoc t now) ∧
       (dislikedDoc t now).updated_at = t.updated_at ∧
       (dislikedDoc t now).created_at = t.created_at ∧
       (UpdGeCre t → UpdGeCre (dislikedDoc t now)))) ∧
    (∀ s i t cid now, s.find i = some t →
      ((deleteComment s (some i) cid now).2.1.find i =
          some (unCommentedDoc t cid now) ∧
       (unCommentedDoc t cid now).updated_at = t.updated_at ∧
       (unCommentedDoc t cid now).created_at = t.created_at ∧
       (UpdGeCre t → UpdGeCre (unCommentedDoc t cid now)))) := by
  refine ⟨?_, ?_, ?_, ?_, ?_, ?_, ?_, ?_, ?_⟩
  · intro s i t body now bF eF ht hval
    have hc : (truthyS body && !validStatus (body.getD "")) = false := by
      cases hb : truthyS body
      · simp
      · cases hv : validStatus (body.getD "")
        · exact absurd ⟨hb, hv⟩ hval
        · simp [hv]
    refine ⟨?_, ?_, ?_, ?_⟩
    · simp only [updateTicket, hc, Bool.false_eq_true, if_false, ht]
      cases hto : ticketOfDoc (toString i) (statusUpdatedDoc t body now) with
      | some tk =>
        simp only [hto]
        exact Store.find_setDoc_self s i _ t ht
      | none =>
        simp only [hto]
        exact Store.find_setDoc_self s i _ t ht
    · unfold statusUpdatedDoc
      split <;> rfl
    · unfold statusUpdatedDoc
      split <;> rfl
    · intro hn
      refine updGeCre_of_now t _ now ?_ ?_ hn
      · unfold statusUpdatedDoc
        split <;> rfl
      · unfold statusUpdatedDoc
        split <;> rfl
  · intro s i t now ht
    refine ⟨?_, rfl, rfl, ?_⟩
    · simp only [markTicketViewed, ht]
      cases hto : ticketOfDoc (toString i) (viewedDoc t now) with
      | some tk =>
        simp only [hto]
        exact Store.find_setDoc_self s i _ t ht
      | none =>
        simp only [hto]
        exact Store.find_setDoc_self s i _ t ht
    · intro hn
      exact updGeCre_of_now t _ now rfl rfl hn
  · intro s i t an rt img u n1 n2 n3 bF eF ht han hrt
    have h1 : (pyStrip (an.getD "") == "") = false := by simpa using han
    have h2 : (pyStrip (rt.getD "") == "") = false := by simpa using hrt
    refine ⟨?_, rfl, rfl, ?_⟩
    · simp only [addAdminResponse, h1, h2, Bool.false_eq_true, if_false, ht]
      exact Store.find_setDoc_self s i _ t ht
    · intro hn
      exact updGeCre_of_now t _ n2 rfl rfl hn
  · intro s i t rid ht hany
    refine ⟨?_, rfl, rfl, updGeCre_of_eq t _ rfl rfl⟩
    simp only [markResponseRead, ht, hany, if_true]
    exact Store.find_setDoc_self s i _ t ht
  · intro s i t rating n1 n2 ht h1le hle5
    have hr : (decide (1 ≤ rating) && decide (rating ≤ 5)) = true := by
      simp [decide_eq_true h1le, decide_eq_true hle5]
    refine ⟨?_, rfl, rfl, updGeCre_of_eq t _ rfl rfl⟩
    simp only [rateTicket, hr, Bool.not_true, Bool.false_eq_true, if_false, ht]
    cases heq : (ratedDoc t rating n1 n2 == t) with
    | true =>
      simp only [heq, if_true]
      exact Store.find_setDoc_self s i _ t ht
    | false =>
      simp only [heq, Bool.false_eq_true, if_false]
      exact Store.find_setDoc_self s i _ t ht
  · intro s i t un ct cu n1 n2 n3 n4 ht hu hc
    have h1 : (pyStrip un == "") = false := by simpa using hu
    have h2 : (pyStrip ct == "") = false := by simpa using hc
    refine ⟨?_, rfl, rfl, updGeCre_of_eq t _ rfl rfl⟩
    simp only [addComment, h1, h2, Bool.false_eq_true, if_false, ht]
    cases heq : (commentedDoc t ⟨cu, pyStrip un, pyStrip ct, n3⟩ n1 n2 n4 == t) with
    | true =>
      simp only [heq, if_true]
      exact Store.find_setDoc_self s i _ t ht
    | false =>
      simp only [heq, Bool.false_eq_true, if_false]
      exact Store.find_setDoc_self s i _ t ht
  · intro s i t now ht
    refine ⟨?_, rfl, rfl, updGeCre_of_eq t _ rfl rfl⟩
    simp only [likeTicket, ht]
    exact Store.find_setDoc_self s i _ t ht
  · intro s i t now ht
    refine ⟨?_, rfl, rfl, updGeCre_of_eq t _ rfl rfl⟩
    simp only [dislikeTicket, ht]
    exact Store.find_setDoc_self s i _ t ht
  · intro s i t cid now ht
    refine ⟨?_, ?_, ?_, ?_⟩
    · cases huf : t.user_feedback with
      | none =>
        simp only [deleteComment, ht, huf, unCommentedDoc]
      | some f =>
        simp only [deleteComment, ht, huf, unCommentedDoc]
        split
        · exact Store.find_setDoc_self s i _ t ht
        · exact Store.find_setDoc_self s i _ t ht
    · cases huf : t.user_feedback <;> simp [unCommentedDoc, huf]
    · cases huf : t.user_feedback <;> simp [unCommentedDoc, huf]
    · refine fun hg => updGeCre_of_eq t _ ?_ ?_ hg
      · cases huf : t.user_feedback <;> simp [unCommentedDoc, huf]
      · cases huf : t.user_feedback <;> simp [unCommentedDoc, huf]

/-- Witness for C6: all nine operations instantiated on the stored demo
ticket (which has `updated_at = 5` and one embedded response). -/
theorem C6_witness :
    Store.find ⟨[(0, demoDocResp)], 1⟩ 0 = some demoDocResp ∧
    (updateTicket ⟨[(0, demoDocResp)], 1⟩ (some 0) (some "resolved") 9 false
        false).2.1.find 0 =
      some (statusUpdatedDoc demoDocResp (some "resolved") 9) ∧
    (markTicketViewed ⟨[(0, demoDocResp)], 1⟩ (some 0) 9).2.1.find 0 =
      some (viewedDoc demoDocResp 9) ∧
    (addAdminResponse ⟨[(0, demoDocResp)], 1⟩ (some 0) (some "Ann")
        (some "done") none "r9" 6 7 8 false false).2.1.find 0 =
      some (respondedDoc demoDocResp
        ⟨"r9", pyStrip ((some "Ann" : Option String).getD ""),
         pyStrip ((some "done" : Option String).getD ""), none, 6, false⟩ 7 8) ∧
    (markResponseRead ⟨[(0, demoDocResp)], 1⟩ (some 0) "r6").2.1.find 0 =
      some (readDoc demoDocResp "r6") ∧
    (readDoc demoDocResp "r6").updated_at = demoDocResp.updated_at ∧
    (rateTicket ⟨[(0, demoDocResp)], 1⟩ (some 0) 4 6 7).2.1.find 0 =
      some (ratedDoc demoDocResp 4 6 7) ∧
    (addComment ⟨[(0, demoDocResp)], 1⟩ (some 0) "Zoe" "thanks" "c1" 6 7 8
        9).2.1.find 0 =
      some (commentedDoc demoDocResp
        ⟨"c1", pyStrip "Zoe", pyStrip "thanks", 8⟩ 6 7 9) ∧
    (likeTicket ⟨[(0, demoDocResp)], 1⟩ (some 0) 6).2.1.find 0 =
      some (likedDoc demoDocResp 6) ∧
    (dislikeTicket ⟨[(0, demoDocResp)], 1⟩ (some 0) 6).2.1.find 0 =
      some (dislikedDoc demoDocResp 6) ∧
    (deleteComment ⟨[(0, demoDocResp)], 1⟩ (some 0) "c1" 6).2.1.find 0 =
      some (unCommentedDoc demoDocResp "c1" 6) := by
  obtain ⟨p1, p2, p3, p4, p5, p6, p7, p8, p9⟩ := C6_updated_at_refresh
  refine ⟨by decide, ?_, ?_, ?_, ?_, ?_, ?_, ?_, ?_, ?_, ?_⟩
  · exact (p1 (⟨[(0, demoDocResp)], 1⟩ : Store) 0 demoDocResp (some "resolved") 9 false false (by decide)
      (by decide)).1
  · exact (p2 (⟨[(0, demoDocResp)], 1⟩ : Store) 0 demoDocResp 9 (by decide)).1
  · exact (p3 (⟨[(0, demoDocResp)], 1⟩ : Store) 0 demoDocResp (some "Ann") (some "done") none "r9" 6 7 8
      false false (by decide) (by decide) (by decide)).1
  · exact (p4 (⟨[(0, demoDocResp)], 1⟩ : Store) 0 demoDocResp "r6" (by decide) (by decide)).1
  · exact (p4 (⟨[(0, demoDocResp)], 1⟩ : Store) 0 demoDocResp "r6" (by decide) (by decide)).2.1
  · exact (p5 (⟨[(0, demoDocResp)], 1⟩ : Store) 0 demoDocResp 4 6 7 (by decide) (by decide) (by decide)).1
  · exact (p6 (⟨[(0, demoDocResp)], 1⟩ : Store) 0 demoDocResp "Zoe" "thanks" "c1" 6 7 8 9 (by decide)
      (by decide) (by decide)).1
  · exact (p7 (⟨[(0, demoDocResp)], 1⟩ : Store) 0 demoDocResp 6 (by decide)).1
  · exact (p8 (⟨[(0, demoDocResp)], 1⟩ : Store) 0 demoDocResp 6 (by decide)).1
  · exact (p9 (⟨[(0, demoDocResp)], 1⟩ : Store) 0 demoDocResp "c1" 6 (by decide)).1

end PacificSupport
